import Mathlib

/-!
# Verification of the lttng-tools session-daemon core (ust-app.c, kernel-consumer.c)

A shallow embedding of the application registry, per-app shadow state,
consumer handoff and enumeration operations of the session daemon, together
with theorems settling the specification's claims about them.

Conventions of the embedding:
* hash tables (`lttng_ht`) are modelled as lists; `lookup` is `List.find?`,
  `add_unique` appends (uniqueness is checked by the caller or asserted),
  `add_replace` removes the old binding and appends the new one;
* machine integers are `Int`/`Nat`; error codes keep their numeric values;
* every external call (tracer driver `ustctl_*`, consumer helpers
  `ust_consumer_*`, `run_as_mkdir_recursive`, allocation) is an oracle input:
  the functions are deterministic in the oracle;
* freeing memory and closing sockets are recorded in effect structures.
-/

namespace LttngSessiond

/-! ## Error codes

Numeric values of the errno constants and of the `lttng/ust-error.h` codes
used by the sources (the header is external; only distinctness and sign
matter to the control flow). -/

def EPIPE : Int := 32

def ENOMEM : Int := 12

def EINVAL : Int := 22

def EEXIST : Int := 17

def ENOTCONN : Int := 107

def LTTNG_UST_ERR_NOENT : Int := 1025

def LTTNG_UST_ERR_EXIST : Int := 1026

def LTTNG_UST_ERR_PERM : Int := 1028

def LTTNG_UST_ERR_EXITING : Int := 1030

/-! ## Event attributes, filters and the event hash-table key (ust-app.c) -/

/-- `enum lttng_ust_loglevel_type`. -/
inductive LoglevelType where
  | all
  | range
  | single
  deriving DecidableEq, Repr

/-- `struct lttng_ust_filter_bytecode`: a length field and the bytecode
bytes. -/
structure FilterBytecode where
  len : Nat
  data : List Nat
  deriving DecidableEq, Repr

/-- The part of `struct lttng_ust_event` the embedding needs: event name,
loglevel type and loglevel value. -/
structure UstEventAttr where
  name : String
  loglevel_type : LoglevelType
  loglevel : Int
  deriving DecidableEq, Repr

/-- `struct ust_app_event`: shadow state of one event materialised in an
application's tracer. `obj_set`/`handle` stand for the tracer-side opaque
object and handle. -/
structure UstAppEvent where
  enabled : Bool
  name : String
  attr : UstEventAttr
  filter : Option FilterBytecode
  obj_set : Bool
  handle : Int
  deriving DecidableEq, Repr

/-- `struct ust_app_ht_key`: the custom lookup key of an `AppChannel`'s
event table. -/
structure UstAppHtKey where
  name : String
  filter : Option FilterBytecode
  loglevel : Int
  deriving DecidableEq, Repr

/-- `ht_match_ust_app_event` (ust-app.c): the hash-table match function on
the triple (name, loglevel, filter).  Names are nul-terminated strings that
fit their buffer, so the `strncmp` is string equality.  The `memcmp` on the
filter bytecode compares `event.filter->len` bytes. -/
def ht_match_ust_app_event (event : UstAppEvent) (key : UstAppHtKey) : Bool :=
  if event.attr.name ≠ key.name then
    false
  else if event.attr.loglevel ≠ key.loglevel ∧
      ¬ (event.attr.loglevel_type = LoglevelType.all ∧ key.loglevel = 0 ∧
          event.attr.loglevel = -1) then
    false
  else if (key.filter.isSome ∧ event.filter = none) ∨
      (key.filter = none ∧ event.filter.isSome) then
    false
  else
    match key.filter, event.filter with
    | some kf, some ef =>
        if ef.len ≠ kf.len ∨ ef.data.take ef.len ≠ kf.data.take ef.len then
          false
        else
          true
    | _, _ => true

/-- `find_ust_app_event` (ust-app.c): lookup in an event table using the
event name as the hash and `ht_match_ust_app_event` as the match function;
the table is modelled as the list of its entries. -/
def find_ust_app_event (ht : List UstAppEvent) (name : String)
    (filter : Option FilterBytecode) (loglevel : Int) : Option UstAppEvent :=
  ht.find? (fun e => ht_match_ust_app_event e ⟨name, filter, loglevel⟩)

/-- `add_unique_ust_app_event` (ust-app.c): unique insert into the event
table (the caller looked the key up first; `cds_lfht_add_unique` appends a
node whose key is absent). -/
def add_unique_ust_app_event (ht : List UstAppEvent) (event : UstAppEvent) :
    List UstAppEvent :=
  ht ++ [event]

/-- C1: event-key equality as used by lookup and unique insert.  The match
function accepts exactly when the names are equal, the loglevels are equal
or fall under the ALL normalisation (event loglevel-type ALL, stored
loglevel `-1`, key loglevel `0`), and the filters are equal by
length-then-bytes with both-absent matching and one-absent-one-present not
matching; consequently `find` with key `(name, 0, no filter)` returns the
event inserted with `(name, -1, ALL)` and no filter. -/
theorem c1_event_key_equality :
    (∀ (e : UstAppEvent) (k : UstAppHtKey),
      ht_match_ust_app_event e k = true ↔
        (e.attr.name = k.name ∧
         (e.attr.loglevel = k.loglevel ∨
           (e.attr.loglevel_type = LoglevelType.all ∧ k.loglevel = 0 ∧
            e.attr.loglevel = -1)) ∧
         ((e.filter = none ∧ k.filter = none) ∨
          (∃ ef kf, e.filter = some ef ∧ k.filter = some kf ∧
            ef.len = kf.len ∧ ef.data.take ef.len = kf.data.take ef.len)))) ∧
    (∀ (e : UstAppEvent),
      e.attr.loglevel = -1 → e.attr.loglevel_type = LoglevelType.all →
      e.filter = none →
      find_ust_app_event (add_unique_ust_app_event [] e) e.attr.name none 0 =
        some e) := by
  constructor
  · intro e k
    unfold ht_match_ust_app_event
    split_ifs with h1 h2 h3
    · simp only [Bool.false_eq_true, false_iff]
      rintro ⟨hn, -, -⟩
      exact h1 hn
    · simp only [Bool.false_eq_true, false_iff]
      rintro ⟨-, hl, -⟩
      rcases hl with hl | hl
      · exact h2.1 hl
      · exact h2.2 hl
    · simp only [Bool.false_eq_true, false_iff]
      rintro ⟨-, -, hf⟩
      rcases h3 with ⟨hks, hen⟩ | ⟨hkn, hes⟩
      · rcases hf with ⟨he, hk⟩ | ⟨ef, kf, he, hk, -, -⟩
        · simp [hk] at hks
        · simp [he] at hen
      · rcases hf with ⟨he, hk⟩ | ⟨ef, kf, he, hk, -, -⟩
        · simp [he] at hes
        · simp [hk] at hkn
    · push_neg at h1 h2
      have hl : e.attr.loglevel = k.loglevel ∨
          (e.attr.loglevel_type = LoglevelType.all ∧ k.loglevel = 0 ∧
            e.attr.loglevel = -1) := by
        by_cases hll : e.attr.loglevel = k.loglevel
        · exact Or.inl hll
        · exact Or.inr (h2 hll)
      rcases hk : k.filter with _ | kf <;> rcases he : e.filter with _ | ef
      · constructor
        · intro _
          exact ⟨h1, hl, Or.inl ⟨rfl, rfl⟩⟩
        · intro _
          rfl
      · exact absurd (Or.inr ⟨hk, by simp [he]⟩) h3
      · exact absurd (Or.inl ⟨by simp [hk], he⟩) h3
      · constructor
        · intro hm
          have hm' : (if ef.len ≠ kf.len ∨
              List.take ef.len ef.data ≠ List.take ef.len kf.data then false
              else true) = true := hm
          by_cases h4 : ef.len ≠ kf.len ∨
              List.take ef.len ef.data ≠ List.take ef.len kf.data
          · rw [if_pos h4] at hm'
            exact absurd hm' (by decide)
          · push_neg at h4
            exact ⟨h1, hl, Or.inr ⟨ef, kf, rfl, rfl, h4.1, h4.2⟩⟩
        · rintro ⟨-, -, hf⟩
          rcases hf with ⟨hen, -⟩ | ⟨ef', kf', he', hk', hlen, hdata⟩
          · exact Option.noConfusion hen
          · cases Option.some.inj he'
            cases Option.some.inj hk'
            have hc : ¬ (ef.len ≠ kf.len ∨
                List.take ef.len ef.data ≠ List.take ef.len kf.data) := by
              push_neg
              exact ⟨hlen, hdata⟩
            exact if_neg hc
  · intro e h1 h2 h3
    simp [find_ust_app_event, add_unique_ust_app_event, List.find?,
      ht_match_ust_app_event, h1, h2, h3]

/-! ## Shadow state: sessions, channels, contexts, streams (ust-app.c) -/

/-- `enum lttng_ust_chan_type`. -/
inductive ChanType where
  | per_cpu
  | metadata
  deriving DecidableEq, Repr

/-- `struct lttng_ust_channel_attr`: the channel attribute bundle on the
global (registry) side; it carries no channel type. -/
structure LttChannelAttr where
  overwrite : Int
  subbuf_size : Nat
  num_subbuf : Nat
  switch_timer_interval : Nat
  read_timer_interval : Nat
  output : Nat
  deriving DecidableEq, Repr

/-- The app-side channel attribute bundle
(`struct ustctl_consumer_channel_attr`): same fields plus the channel
type. -/
structure AppChannelAttr where
  overwrite : Int
  subbuf_size : Nat
  num_subbuf : Nat
  switch_timer_interval : Nat
  read_timer_interval : Nat
  output : Nat
  type : ChanType
  deriving DecidableEq, Repr

/-- `struct lttng_ust_context`: a context-kind tag. -/
structure LttUstContext where
  ctx : Nat
  deriving DecidableEq, Repr

/-- `struct ltt_ust_event`: a global-session event description. -/
structure LttUstEvent where
  enabled : Bool
  attr : UstEventAttr
  filter : Option FilterBytecode
  deriving DecidableEq, Repr

/-- `struct ltt_ust_channel`: a global-session channel with its contexts
and events (the hash tables are modelled as lists). -/
structure LttUstChannel where
  name : String
  attr : LttChannelAttr
  enabled : Bool
  ctx : List LttUstContext
  events : List LttUstEvent
  deriving DecidableEq, Repr

/-- The part of `struct ltt_ust_session` the embedding needs: id, uid,
gid and the channels of the global domain. -/
structure LttUstSession where
  id : Nat
  uid : Nat
  gid : Nat
  domain_global_channels : List LttUstChannel
  deriving DecidableEq, Repr

/-- `struct ust_app_ctx`: shadow of a context materialised in the app. -/
structure UstAppCtx where
  ctx : LttUstContext
  obj_set : Bool
  handle : Int
  deriving DecidableEq, Repr

/-- `struct ust_app_stream`: cpu index, tracer object flag and handle; the
file descriptor lives with the object. -/
structure UstAppStream where
  handle : Int
  cpu : Nat
  obj_set : Bool
  deriving DecidableEq, Repr

/-- `struct ust_app_channel`. -/
structure UstAppChannel where
  name : String
  enabled : Bool
  handle : Int
  key : Nat
  obj_set : Bool
  attr : AppChannelAttr
  is_sent : Bool
  expected_stream_count : Nat
  ctx : List UstAppCtx
  events : List UstAppEvent
  streams : List UstAppStream
  deriving DecidableEq, Repr

/-- `struct ust_app_session`. -/
structure UstAppSession where
  id : Nat
  uid : Nat
  gid : Nat
  handle : Int
  started : Bool
  path : String
  channels : List UstAppChannel
  metadata : Option UstAppChannel
  deriving DecidableEq, Repr

/-- `struct ust_app`: one registered traceable application. -/
structure UstApp where
  pid : Nat
  ppid : Nat
  uid : Nat
  gid : Nat
  name : String
  sock : Nat
  compatible : Bool
  bits_per_long : Nat
  v_major : Nat
  v_minor : Nat
  sessions : List (Nat × UstAppSession)
  teardown_list : List UstAppSession
  deriving DecidableEq, Repr

/-- The all-zero channel attribute bundle a `zmalloc` produces
(enum value 0 is `LTTNG_UST_CHAN_PER_CPU`). -/
def zeroAppChannelAttr : AppChannelAttr :=
  { overwrite := 0, subbuf_size := 0, num_subbuf := 0,
    switch_timer_interval := 0, read_timer_interval := 0, output := 0,
    type := ChanType.per_cpu }

/-- `get_next_channel_key` (ust-app.c): atomically incremented counter;
returns the incremented value together with the new counter. -/
def get_next_channel_key (next_channel_key : Nat) : Nat × Nat :=
  (next_channel_key + 1, next_channel_key + 1)

/-- `alloc_ust_app_channel` (ust-app.c): zero the channel, set
`enabled = 1`, `handle = -1`, a fresh key, copy the attribute bundle when
one is given, and default the channel type to PER_CPU.  The channel-key
counter is threaded explicitly. -/
def alloc_ust_app_channel (name : String) (attr : Option LttChannelAttr)
    (next_channel_key : Nat) : UstAppChannel × Nat :=
  let kk := get_next_channel_key next_channel_key
  let base : UstAppChannel :=
    { name := name, enabled := true, handle := -1, key := kk.1,
      obj_set := false, attr := zeroAppChannelAttr, is_sent := false,
      expected_stream_count := 0, ctx := [], events := [], streams := [] }
  let chan :=
    match attr with
    | some a =>
        { base with attr := { base.attr with
            subbuf_size := a.subbuf_size,
            num_subbuf := a.num_subbuf,
            overwrite := a.overwrite,
            switch_timer_interval := a.switch_timer_interval,
            read_timer_interval := a.read_timer_interval,
            output := a.output } }
    | none => base
  ({ chan with attr := { chan.attr with type := ChanType.per_cpu } }, kk.2)

/-- `alloc_ust_app_event` (ust-app.c): zeroed event with `enabled = 1`,
the given name, and the attribute bundle copied when given. -/
def alloc_ust_app_event (name : String) (attr : Option UstEventAttr) :
    UstAppEvent :=
  { enabled := true, name := name,
    attr :=
      match attr with
      | some a => a
      | none => { name := "", loglevel_type := LoglevelType.all, loglevel := 0 },
    filter := none, obj_set := false, handle := 0 }

/-- `alloc_ust_app_ctx` (ust-app.c). -/
def alloc_ust_app_ctx (uctx : LttUstContext) : UstAppCtx :=
  { ctx := uctx, obj_set := false, handle := 0 }

/-- `shadow_copy_event` (ust-app.c): copy name, enabled flag and attribute
bundle; clone the filter when the global event has one. -/
def shadow_copy_event (ua_event : UstAppEvent) (uevent : LttUstEvent) :
    UstAppEvent :=
  { ua_event with
      name := uevent.attr.name,
      enabled := uevent.enabled,
      attr := uevent.attr,
      filter :=
        match uevent.filter with
        | some f => some f
        | none => ua_event.filter }

/-- Per-context body of the context loop of `shadow_copy_channel`: allocate
an `ust_app_ctx` and insert it keyed by its kind (`cds_lfht_add_unique`
leaves the table unchanged when the key is already present). -/
def shadow_copy_channel_ctx_step (ch : UstAppChannel) (uctx : LttUstContext) :
    UstAppChannel :=
  if ch.ctx.any (fun c => c.ctx.ctx = uctx.ctx) then ch
  else { ch with ctx := ch.ctx ++ [alloc_ust_app_ctx uctx] }

/-- Per-event body of the event loop of `shadow_copy_channel`: if no app
event matches under the event key, allocate one, shadow-copy it and insert
it with uniqueness. -/
def shadow_copy_channel_event_step (ch : UstAppChannel) (uevent : LttUstEvent) :
    UstAppChannel :=
  match find_ust_app_event ch.events uevent.attr.name uevent.filter
      uevent.attr.loglevel with
  | some _ => ch
  | none =>
      let ua_event := shadow_copy_event
        (alloc_ust_app_event uevent.attr.name (some uevent.attr)) uevent
      { ch with events := add_unique_ust_app_event ch.events ua_event }

/-- `shadow_copy_channel` (ust-app.c): copy name, attribute bundle (without
the channel type) and enabled flag, then project every context and every
event of the global channel. -/
def shadow_copy_channel (ua_chan : UstAppChannel) (uchan : LttUstChannel) :
    UstAppChannel :=
  let base := { ua_chan with
      name := uchan.name,
      attr := { ua_chan.attr with
        subbuf_size := uchan.attr.subbuf_size,
        num_subbuf := uchan.attr.num_subbuf,
        overwrite := uchan.attr.overwrite,
        switch_timer_interval := uchan.attr.switch_timer_interval,
        read_timer_interval := uchan.attr.read_timer_interval,
        output := uchan.attr.output },
      enabled := uchan.enabled }
  uchan.events.foldl shadow_copy_channel_event_step
    (uchan.ctx.foldl shadow_copy_channel_ctx_step base)

/-- A channel of the given name is bound in the session. -/
def hasChannelNamed (s : UstAppSession) (n : String) : Bool :=
  s.channels.any (fun c => c.name = n)

/-- Per-channel body of the channel loop of `shadow_copy_session`: skip a
global channel whose name is already bound in `ua_sess.channels`, otherwise
allocate, shadow-copy, force channel type PER_CPU and insert. -/
def shadow_copy_session_chan_step (acc : UstAppSession × Nat)
    (uchan : LttUstChannel) : UstAppSession × Nat :=
  if hasChannelNamed acc.1 uchan.name then acc
  else
    let alloc := alloc_ust_app_channel uchan.name (some uchan.attr) acc.2
    let ch1 := shadow_copy_channel alloc.1 uchan
    let ch2 := { ch1 with attr := { ch1.attr with type := ChanType.per_cpu } }
    ({ acc.1 with channels := acc.1.channels ++ [ch2] }, alloc.2)

/-- `shadow_copy_session` (ust-app.c): copy session id, uid and gid, stamp
the relative trace path `"<name>-<pid>-<datetime>/"` (the `datetime` string
produced from the current local time is an explicit input), then project
every channel of the global domain not already present by name.  The
channel-key counter is threaded explicitly. -/
def shadow_copy_session (ua_sess : UstAppSession) (usess : LttUstSession)
    (app : UstApp) (datetime : String) (next_channel_key : Nat) :
    UstAppSession × Nat :=
  let s0 := { ua_sess with
      id := usess.id, uid := usess.uid, gid := usess.gid,
      path := app.name ++ "-" ++ toString app.pid ++ "-" ++ datetime ++ "/" }
  usess.domain_global_channels.foldl shadow_copy_session_chan_step
    (s0, next_channel_key)

/-! Projection of the shadow subset claim C2 quantifies over: session id,
uid, gid, trace path, and per-channel name, attribute bundle, enabled
flag, context kinds and event structure. -/

/-- The projected subset of one shadow event. -/
def projEvent (e : UstAppEvent) :
    String × Bool × UstEventAttr × Option FilterBytecode :=
  (e.name, e.enabled, e.attr, e.filter)

/-- The projected subset of one shadow channel. -/
def projChannel (c : UstAppChannel) :
    String × AppChannelAttr × Bool × List Nat ×
      List (String × Bool × UstEventAttr × Option FilterBytecode) :=
  (c.name, c.attr, c.enabled, c.ctx.map (fun x => x.ctx.ctx),
   c.events.map projEvent)

/-- The projected subset of one shadow session. -/
def projSession (s : UstAppSession) :
    Nat × Nat × Nat × String ×
      List (String × AppChannelAttr × Bool × List Nat ×
        List (String × Bool × UstEventAttr × Option FilterBytecode)) :=
  (s.id, s.uid, s.gid, s.path, s.channels.map projChannel)

theorem scs_chan_step_preserves_fields (acc : UstAppSession × Nat)
    (uchan : LttUstChannel) :
    (shadow_copy_session_chan_step acc uchan).1.id = acc.1.id ∧
    (shadow_copy_session_chan_step acc uchan).1.uid = acc.1.uid ∧
    (shadow_copy_session_chan_step acc uchan).1.gid = acc.1.gid ∧
    (shadow_copy_session_chan_step acc uchan).1.path = acc.1.path ∧
    (shadow_copy_session_chan_step acc uchan).1.handle = acc.1.handle ∧
    (shadow_copy_session_chan_step acc uchan).1.started = acc.1.started ∧
    (shadow_copy_session_chan_step acc uchan).1.metadata = acc.1.metadata := by
  unfold shadow_copy_session_chan_step
  split_ifs <;> simp

theorem scs_foldl_preserves_fields (l : List LttUstChannel)
    (acc : UstAppSession × Nat) :
    (l.foldl shadow_copy_session_chan_step acc).1.id = acc.1.id ∧
    (l.foldl shadow_copy_session_chan_step acc).1.uid = acc.1.uid ∧
    (l.foldl shadow_copy_session_chan_step acc).1.gid = acc.1.gid ∧
    (l.foldl shadow_copy_session_chan_step acc).1.path = acc.1.path ∧
    (l.foldl shadow_copy_session_chan_step acc).1.handle = acc.1.handle ∧
    (l.foldl shadow_copy_session_chan_step acc).1.started = acc.1.started ∧
    (l.foldl shadow_copy_session_chan_step acc).1.metadata = acc.1.metadata := by
  induction l generalizing acc with
  | nil => simp
  | cons x xs ih =>
    rw [List.foldl_cons]
    have hstep := scs_chan_step_preserves_fields acc x
    have hrest := ih (shadow_copy_session_chan_step acc x)
    exact ⟨hrest.1.trans hstep.1,
      hrest.2.1.trans hstep.2.1,
      hrest.2.2.1.trans hstep.2.2.1,
      hrest.2.2.2.1.trans hstep.2.2.2.1,
      hrest.2.2.2.2.1.trans hstep.2.2.2.2.1,
      hrest.2.2.2.2.2.1.trans hstep.2.2.2.2.2.1,
      hrest.2.2.2.2.2.2.trans hstep.2.2.2.2.2.2⟩

theorem scs_chan_step_mono (acc : UstAppSession × Nat)
    (uchan : LttUstChannel) (n : String)
    (h : hasChannelNamed acc.1 n = true) :
    hasChannelNamed (shadow_copy_session_chan_step acc uchan).1 n = true := by
  unfold shadow_copy_session_chan_step
  split_ifs with hp
  · exact h
  · unfold hasChannelNamed at h ⊢
    simp only [List.any_append, Bool.or_eq_true]
    exact Or.inl h

theorem shadow_copy_channel_name (ua_chan : UstAppChannel)
    (uchan : LttUstChannel) :
    (shadow_copy_channel ua_chan uchan).name = uchan.name := by
  unfold shadow_copy_channel
  have hev : ∀ (l : List LttUstEvent) (ch : UstAppChannel),
      (l.foldl shadow_copy_channel_event_step ch).name = ch.name := by
    intro l
    induction l with
    | nil => intro ch; rfl
    | cons x xs ih =>
      intro ch
      rw [List.foldl_cons, ih]
      unfold shadow_copy_channel_event_step
      cases find_ust_app_event ch.events x.attr.name x.filter x.attr.loglevel <;>
        rfl
  have hctx : ∀ (l : List LttUstContext) (ch : UstAppChannel),
      (l.foldl shadow_copy_channel_ctx_step ch).name = ch.name := by
    intro l
    induction l with
    | nil => intro ch; rfl
    | cons x xs ih =>
      intro ch
      rw [List.foldl_cons, ih]
      unfold shadow_copy_channel_ctx_step
      split_ifs <;> rfl
  rw [hev, hctx]

theorem scs_chan_step_adds (acc : UstAppSession × Nat)
    (uchan : LttUstChannel) :
    hasChannelNamed (shadow_copy_session_chan_step acc uchan).1 uchan.name =
      true := by
  unfold shadow_copy_session_chan_step
  split_ifs with hp
  · exact hp
  · unfold hasChannelNamed
    simp only [List.any_append, Bool.or_eq_true]
    right
    simp [shadow_copy_channel_name]

theorem scs_foldl_mono (l : List LttUstChannel) (acc : UstAppSession × Nat)
    (n : String) (h : hasChannelNamed acc.1 n = true) :
    hasChannelNamed (l.foldl shadow_copy_session_chan_step acc).1 n = true := by
  induction l generalizing acc with
  | nil => exact h
  | cons x xs ih =>
    rw [List.foldl_cons]
    exact ih _ (scs_chan_step_mono acc x n h)

theorem scs_foldl_establishes (l : List LttUstChannel)
    (acc : UstAppSession × Nat) (uchan : LttUstChannel) (h : uchan ∈ l) :
    hasChannelNamed (l.foldl shadow_copy_session_chan_step acc).1 uchan.name =
      true := by
  induction l generalizing acc with
  | nil => cases h
  | cons x xs ih =>
    rw [List.foldl_cons]
    rcases List.mem_cons.mp h with he | hm
    · subst he
      exact scs_foldl_mono xs _ _ (scs_chan_step_adds acc uchan)
    · exact ih _ hm

theorem scs_foldl_fixed (l : List LttUstChannel) (acc : UstAppSession × Nat)
    (h : ∀ uchan ∈ l, hasChannelNamed acc.1 uchan.name = true) :
    l.foldl shadow_copy_session_chan_step acc = acc := by
  induction l generalizing acc with
  | nil => rfl
  | cons x xs ih =>
    rw [List.foldl_cons]
    have hx : shadow_copy_session_chan_step acc x = acc := by
      unfold shadow_copy_session_chan_step
      rw [h x (List.mem_cons_self x xs)]
      simp
    rw [hx]
    exact ih acc (fun u hu => h u (List.mem_cons_of_mem x hu))

theorem shadow_copy_session_full_idem (ua_sess : UstAppSession)
    (usess : LttUstSession) (app : UstApp) (datetime : String)
    (next_channel_key : Nat) :
    shadow_copy_session
        (shadow_copy_session ua_sess usess app datetime next_channel_key).1
        usess app datetime
        (shadow_copy_session ua_sess usess app datetime next_channel_key).2 =
      shadow_copy_session ua_sess usess app datetime next_channel_key := by
  unfold shadow_copy_session
  set s0 : UstAppSession := { ua_sess with
      id := usess.id, uid := usess.uid, gid := usess.gid,
      path := app.name ++ "-" ++ toString app.pid ++ "-" ++ datetime ++ "/" }
    with hs0
  set r := usess.domain_global_channels.foldl shadow_copy_session_chan_step
      (s0, next_channel_key) with hr
  have hfields := scs_foldl_preserves_fields usess.domain_global_channels
      (s0, next_channel_key)
  have hs0r : { r.1 with
      id := usess.id, uid := usess.uid, gid := usess.gid,
      path := app.name ++ "-" ++ toString app.pid ++ "-" ++ datetime ++ "/" } =
      r.1 := by
    have h1 : usess.id = r.1.id := hfields.1.symm
    have h2 : usess.uid = r.1.uid := hfields.2.1.symm
    have h3 : usess.gid = r.1.gid := hfields.2.2.1.symm
    have h4 : app.name ++ "-" ++ toString app.pid ++ "-" ++ datetime ++ "/" =
        r.1.path := hfields.2.2.2.1.symm
    rw [h1, h2, h3, h4]
  rw [hs0r]
  show List.foldl shadow_copy_session_chan_step (r.1, r.2)
      usess.domain_global_channels = r
  have hpair : ((r.1, r.2) : UstAppSession × Nat) = r := rfl
  rw [hpair]
  exact scs_foldl_fixed usess.domain_global_channels r
    (fun u hu => scs_foldl_establishes usess.domain_global_channels
      (s0, next_channel_key) u hu)

/-- C2: `shadow_copy_session` is idempotent.  Running the projection twice
over the same global session, app and timestamp (the second run over the
result of the first, with the channel-key counter threaded through) yields
the same shadow session tree as running it once, by deep equality of the
projected subset: session id, uid, gid, trace path, and per-channel
name/attribute/enabled/context/event structure. -/
theorem c2_shadow_copy_session_idempotent (ua_sess : UstAppSession)
    (usess : LttUstSession) (app : UstApp) (datetime : String)
    (next_channel_key : Nat) :
    projSession
        (shadow_copy_session
          (shadow_copy_session ua_sess usess app datetime next_channel_key).1
          usess app datetime
          (shadow_copy_session ua_sess usess app datetime next_channel_key).2).1 =
      projSession
        (shadow_copy_session ua_sess usess app datetime next_channel_key).1 := by
  rw [shadow_copy_session_full_idem]


/-! ## Consumer handoff: `create_ust_channel` and metadata creation
(ust-app.c) -/

/-- `DEFAULT_UST_STREAM_FD_NUM`: file-descriptor quota units per stream. -/
def DEFAULT_UST_STREAM_FD_NUM : Nat := 2

/-- `DEFAULT_METADATA_NAME`. -/
def DEFAULT_METADATA_NAME : String := "metadata"

/-- Default metadata-channel attribute values (`common/defaults.h`; the
numeric values are opaque to the control flow). -/
def DEFAULT_CHANNEL_OVERWRITE : Int := 0

def DEFAULT_METADATA_SUBBUF_NUM : Nat := 2

def DEFAULT_CHANNEL_SWITCH_TIMER : Nat := 0

def DEFAULT_CHANNEL_READ_TIMER : Nat := 200

def default_metadata_subbuf_size : Nat := 4096

/-- `LTTNG_UST_MMAP` output mode value. -/
def LTTNG_UST_MMAP : Nat := 0

/-- Resource effects of one operation: total FD quota units reserved
(`lttng_fd_get`), total released (`lttng_fd_put`), and whether
`ust_consumer_destroy_channel` was invoked. -/
structure Effects where
  fd_get_total : Nat
  fd_put_total : Nat
  destroy_channel_called : Bool
  deriving DecidableEq, Repr

/-- No resource effect. -/
def noEffects : Effects :=
  { fd_get_total := 0, fd_put_total := 0, destroy_channel_called := false }

/-- Oracle for the external calls of `create_ust_channel`.  Modelled from
the spec: the consumer helpers `ust_consumer_ask_channel` (returns the
expected stream count), `ust_consumer_get_channel` (populates the stream
list and the channel object), `ust_consumer_send_channel_to_ust` and
`ust_consumer_send_stream_to_ust` live in ust-consumer.c, which is not
among the sources; only their return codes and outputs matter to
`create_ust_channel`'s control flow. -/
structure CreateChannelOracle where
  socket_ok : Bool
  ask_ret : Int
  ask_expected_stream_count : Nat
  fd_get_ret : Int
  get_ret : Int
  get_streams : List UstAppStream
  send_stream_rets : List Int
  send_channel_ret : Int
  disable_ret : Int
  deriving DecidableEq, Repr

/-- The stream loop of `create_ust_channel`: send each stream to the
application; on success the stream is dropped locally
(`delete_ust_app_stream(-1, stream)` releases 2 FD quota units when the
stream has a tracer object); on failure the loop stops (`goto error`).
Returns the streams still owned, the FD units released, and the last
return code (0 when every stream was sent). -/
def send_streams_loop (streams : List UstAppStream) (rets : List Int)
    (i : Nat) : List UstAppStream × Nat × Int :=
  match streams with
  | [] => ([], 0, 0)
  | st :: rest =>
      if rets.getD i 0 < 0 then (st :: rest, 0, rets.getD i 0)
      else
        let r := send_streams_loop rest rets (i + 1)
        (r.1, (if st.obj_set then 2 else 0) + r.2.1, r.2.2)

/-- `create_ust_channel` (ust-app.c): find the consumer socket, ask the
consumer to create the channel (recording `expected_stream_count`),
reserve `DEFAULT_UST_STREAM_FD_NUM * expected_stream_count` FD quota
units, get the channel from the consumer (recording the channel object and
streams), send the channel then every stream to the application, mark
`is_sent`, and disable the channel on the tracer when it is not enabled.
On `lttng_fd_get` failure the consumer is asked to destroy the channel; on
`ust_consumer_get_channel` failure the reserved units are released and the
consumer is asked to destroy the channel; later failures release only the
units of the streams already dropped.  The guards are ordered exactly as
the source's early-exit `goto`s. -/
def create_ust_channel (ua_chan : UstAppChannel) (o : CreateChannelOracle) :
    UstAppChannel × Effects × Int :=
  if !o.socket_ok then (ua_chan, noEffects, -1)
  else if o.ask_ret < 0 then (ua_chan, noEffects, o.ask_ret)
  else if o.fd_get_ret < 0 then
    ({ ua_chan with
        expected_stream_count := o.ask_expected_stream_count },
     { fd_get_total := 0, fd_put_total := 0, destroy_channel_called := true },
     o.fd_get_ret)
  else if o.get_ret < 0 then
    ({ ua_chan with
        expected_stream_count := o.ask_expected_stream_count },
     { fd_get_total :=
         DEFAULT_UST_STREAM_FD_NUM * o.ask_expected_stream_count,
       fd_put_total :=
         DEFAULT_UST_STREAM_FD_NUM * o.ask_expected_stream_count,
       destroy_channel_called := true },
     o.get_ret)
  else if o.send_channel_ret < 0 then
    ({ ua_chan with
        expected_stream_count := o.ask_expected_stream_count,
        obj_set := true,
        streams := o.get_streams },
     { fd_get_total :=
         DEFAULT_UST_STREAM_FD_NUM * o.ask_expected_stream_count,
       fd_put_total := 0, destroy_channel_called := false },
     o.send_channel_ret)
  else if (send_streams_loop o.get_streams o.send_stream_rets 0).2.2 < 0 then
    ({ ua_chan with
        expected_stream_count := o.ask_expected_stream_count,
        obj_set := true,
        streams := (send_streams_loop o.get_streams o.send_stream_rets 0).1 },
     { fd_get_total :=
         DEFAULT_UST_STREAM_FD_NUM * o.ask_expected_stream_count,
       fd_put_total :=
         (send_streams_loop o.get_streams o.send_stream_rets 0).2.1,
       destroy_channel_called := false },
     (send_streams_loop o.get_streams o.send_stream_rets 0).2.2)
  else if !ua_chan.enabled ∧ o.disable_ret < 0 then
    ({ ua_chan with
        expected_stream_count := o.ask_expected_stream_count,
        obj_set := true,
        streams := (send_streams_loop o.get_streams o.send_stream_rets 0).1,
        is_sent := true },
     { fd_get_total :=
         DEFAULT_UST_STREAM_FD_NUM * o.ask_expected_stream_count,
       fd_put_total :=
         (send_streams_loop o.get_streams o.send_stream_rets 0).2.1,
       destroy_channel_called := false },
     o.disable_ret)
  else
    ({ ua_chan with
        expected_stream_count := o.ask_expected_stream_count,
        obj_set := true,
        streams := (send_streams_loop o.get_streams o.send_stream_rets 0).1,
        is_sent := true },
     { fd_get_total :=
         DEFAULT_UST_STREAM_FD_NUM * o.ask_expected_stream_count,
       fd_put_total :=
         (send_streams_loop o.get_streams o.send_stream_rets 0).2.1,
       destroy_channel_called := false },
     0)

/-- FD quota units released by `delete_ust_app_channel`: 2 per stream with
a tracer object plus 2 for the channel object itself. -/
def delete_ust_app_channel_fd_put (ch : UstAppChannel) : Nat :=
  (ch.streams.map (fun st => if st.obj_set then 2 else 0)).sum +
    (if ch.obj_set then 2 else 0)

/-- The metadata channel as allocated and defaulted by
`create_ust_app_metadata` before the consumer handoff. -/
def metadata_channel_defaults (next_channel_key : Nat) : UstAppChannel :=
  { (alloc_ust_app_channel DEFAULT_METADATA_NAME none next_channel_key).1 with
    attr :=
      { overwrite := DEFAULT_CHANNEL_OVERWRITE,
        subbuf_size := default_metadata_subbuf_size,
        num_subbuf := DEFAULT_METADATA_SUBBUF_NUM,
        switch_timer_interval := DEFAULT_CHANNEL_SWITCH_TIMER,
        read_timer_interval := DEFAULT_CHANNEL_READ_TIMER,
        output := LTTNG_UST_MMAP,
        type := ChanType.metadata } }

/-- `create_ust_app_metadata` (ust-app.c): return success when the session
already has a metadata channel; otherwise allocate the `"metadata"`
channel with the default metadata attributes, create it through
`create_ust_channel`, and record it in the session only on success (on
failure the freshly allocated channel is deleted, releasing its FD
units). -/
def create_ust_app_metadata (ua_sess : UstAppSession)
    (next_channel_key : Nat) (o : CreateChannelOracle) :
    UstAppSession × Nat × Effects × Int :=
  match ua_sess.metadata with
  | some _ => (ua_sess, next_channel_key, noEffects, 0)
  | none =>
      if (create_ust_channel (metadata_channel_defaults next_channel_key)
            o).2.2 < 0 then
        (ua_sess,
         (alloc_ust_app_channel DEFAULT_METADATA_NAME none next_channel_key).2,
         { (create_ust_channel (metadata_channel_defaults next_channel_key)
              o).2.1 with
           fd_put_total :=
             (create_ust_channel (metadata_channel_defaults next_channel_key)
                o).2.1.fd_put_total +
             delete_ust_app_channel_fd_put
               (create_ust_channel (metadata_channel_defaults next_channel_key)
                  o).1 },
         (create_ust_channel (metadata_channel_defaults next_channel_key)
            o).2.2)
      else
        ({ ua_sess with
            metadata := some (create_ust_channel
              (metadata_channel_defaults next_channel_key) o).1 },
         (alloc_ust_app_channel DEFAULT_METADATA_NAME none next_channel_key).2,
         (create_ust_channel (metadata_channel_defaults next_channel_key)
            o).2.1,
         0)

/-- Oracle for the external calls of `ust_app_start_trace`:
`run_as_mkdir_recursive`, the metadata-creation consumer calls,
`ustctl_start_session` and `ustctl_wait_quiescent`. -/
structure StartTraceOracle where
  mkdir_ret : Int
  metadata : CreateChannelOracle
  start_ret : Int
  quiescent_ret : Int
  deriving DecidableEq, Repr

/-- `ust_app_start_trace` (ust-app.c).  `compatible` is the app's flag,
`consumer_local_with_path` holds when the session's consumer is LOCAL with
a non-empty trace path; the `Option` argument is the app session found for
the global session (`none` when absent: the function is a no-op then,
exactly as when the app is not compatible).  Returns the updated session,
the channel-key counter and the return value (0 or -1).  A started session
skips the setup and goes directly to `ustctl_start_session`; a
`wait_quiescent` failure is only logged. -/
def ust_app_start_trace (compatible : Bool)
    (consumer_local_with_path : Bool) :
    Option UstAppSession → Nat → StartTraceOracle →
      Option UstAppSession × Nat × Int
  | none, next_channel_key, _ => (none, next_channel_key, 0)
  | some s, next_channel_key, o =>
      if !compatible then (some s, next_channel_key, 0)
      else if s.started ∧ o.start_ret < 0 then (some s, next_channel_key, -1)
      else if s.started then
        (some { s with started := true }, next_channel_key, 0)
      else if consumer_local_with_path ∧ o.mkdir_ret < 0 ∧
          o.mkdir_ret ≠ -EEXIST then
        (some s, next_channel_key, -1)
      else if (create_ust_app_metadata s next_channel_key o.metadata).2.2.2
          < 0 then
        (some (create_ust_app_metadata s next_channel_key o.metadata).1,
         (create_ust_app_metadata s next_channel_key o.metadata).2.1, -1)
      else if o.start_ret < 0 then
        (some (create_ust_app_metadata s next_channel_key o.metadata).1,
         (create_ust_app_metadata s next_channel_key o.metadata).2.1, -1)
      else
        (some { (create_ust_app_metadata s next_channel_key o.metadata).1 with
            started := true },
         (create_ust_app_metadata s next_channel_key o.metadata).2.1, 0)

/-- Auxiliary invariant: whenever the session's metadata channel exists it
has been delivered to its consumer. -/
def metadataSentInv (s : UstAppSession) : Prop :=
  ∀ m, s.metadata = some m → m.is_sent = true

/-- The claimed invariant: a started session has a metadata channel and
that channel has been delivered. -/
def startedMetadataInv (s : UstAppSession) : Prop :=
  s.started = true → ∃ m, s.metadata = some m ∧ m.is_sent = true

theorem create_ust_channel_sent (ua_chan : UstAppChannel)
    (o : CreateChannelOracle)
    (h : ¬ (create_ust_channel ua_chan o).2.2 < 0) :
    (create_ust_channel ua_chan o).1.is_sent = true := by
  unfold create_ust_channel at h ⊢
  split_ifs at h ⊢ with h1 h2 h3 h4 h5 h6 h7
  · exact absurd (by norm_num) h
  · exact absurd h2 h
  · exact absurd h3 h
  · exact absurd h4 h
  · exact absurd h5 h
  · exact absurd h6 h
  · exact absurd h7.2 h
  · rfl

theorem create_ust_app_metadata_started (ua_sess : UstAppSession)
    (next_channel_key : Nat) (o : CreateChannelOracle) :
    (create_ust_app_metadata ua_sess next_channel_key o).1.started =
      ua_sess.started := by
  rcases hmd : ua_sess.metadata with _ | md
  · simp only [create_ust_app_metadata, hmd]
    split_ifs <;> rfl
  · simp only [create_ust_app_metadata, hmd]

theorem create_ust_app_metadata_fail_unchanged (ua_sess : UstAppSession)
    (next_channel_key : Nat) (o : CreateChannelOracle)
    (h : (create_ust_app_metadata ua_sess next_channel_key o).2.2.2 < 0) :
    (create_ust_app_metadata ua_sess next_channel_key o).1 = ua_sess := by
  rcases hmd : ua_sess.metadata with _ | md
  · simp only [create_ust_app_metadata, hmd] at h ⊢
    split_ifs at h ⊢ with h1
    · rfl
    · exact absurd h (by norm_num)
  · simp only [create_ust_app_metadata, hmd]

theorem create_ust_app_metadata_inv (ua_sess : UstAppSession)
    (next_channel_key : Nat) (o : CreateChannelOracle)
    (hs : metadataSentInv ua_sess) :
    metadataSentInv (create_ust_app_metadata ua_sess next_channel_key o).1 ∧
    (¬ (create_ust_app_metadata ua_sess next_channel_key o).2.2.2 < 0 →
      ∃ m, (create_ust_app_metadata ua_sess next_channel_key o).1.metadata =
          some m ∧ m.is_sent = true) := by
  rcases hmd : ua_sess.metadata with _ | md
  · simp only [create_ust_app_metadata, hmd]
    split_ifs with hret
    · refine ⟨?_, ?_⟩
      · intro m hm
        exact hs m hm
      · intro hnn
        exact absurd hret hnn
    · refine ⟨?_, ?_⟩
      · intro m hm
        have hm' : some (create_ust_channel
            (metadata_channel_defaults next_channel_key) o).1 = some m := hm
        rw [← Option.some.inj hm']
        exact create_ust_channel_sent _ _ hret
      · intro _
        exact ⟨_, rfl, create_ust_channel_sent _ _ hret⟩
  · simp only [create_ust_app_metadata, hmd]
    exact ⟨hs, fun _ => ⟨md, rfl, hs md hmd⟩⟩

/-- C3: the started-implies-metadata-delivered invariant.  (1)
`create_ust_channel` marks `is_sent` whenever it returns success; (2)
`create_ust_app_metadata` records in the session only a metadata channel
that is already `is_sent`; (3) `ust_app_start_trace` preserves the
invariant `started = true → metadata exists ∧ metadata.is_sent` (together
with the auxiliary invariant that any present metadata channel is
delivered), setting `started` only after `create_ust_app_metadata`
succeeded. -/
theorem c3_started_metadata_invariant :
    (∀ (ua_chan : UstAppChannel) (o : CreateChannelOracle),
      (create_ust_channel ua_chan o).2.2 = 0 →
      (create_ust_channel ua_chan o).1.is_sent = true) ∧
    (∀ (ua_sess : UstAppSession) (next_channel_key : Nat)
        (o : CreateChannelOracle) (m : UstAppChannel),
      ua_sess.metadata = none →
      (create_ust_app_metadata ua_sess next_channel_key o).1.metadata =
        some m →
      m.is_sent = true) ∧
    (∀ (compatible consumer_local_with_path : Bool) (s : UstAppSession)
        (next_channel_key : Nat) (o : StartTraceOracle)
        (s' : UstAppSession),
      metadataSentInv s → startedMetadataInv s →
      (ust_app_start_trace compatible consumer_local_with_path (some s)
          next_channel_key o).1 = some s' →
      metadataSentInv s' ∧ startedMetadataInv s') := by
  refine ⟨?_, ?_, ?_⟩
  · intro ua_chan o h
    exact create_ust_channel_sent ua_chan o (by rw [h]; norm_num)
  · intro ua_sess next_channel_key o m hnone hsome
    have hinv : metadataSentInv ua_sess := by
      intro x hx
      rw [hnone] at hx
      cases hx
    exact (create_ust_app_metadata_inv ua_sess next_channel_key o hinv).1
      m hsome
  · intro compatible clwp s next_channel_key o s' hms hsm hres
    have hmv := create_ust_app_metadata_inv s next_channel_key o.metadata hms
    simp only [ust_app_start_trace] at hres
    split_ifs at hres with hc h1 h2 h3 h4 h5
    · cases Option.some.inj hres
      exact ⟨hms, hsm⟩
    · cases Option.some.inj hres
      exact ⟨hms, hsm⟩
    · cases Option.some.inj hres
      refine ⟨hms, ?_⟩
      intro _
      exact hsm h2
    · cases Option.some.inj hres
      exact ⟨hms, hsm⟩
    · cases Option.some.inj hres
      rw [create_ust_app_metadata_fail_unchanged s next_channel_key
        o.metadata h4]
      exact ⟨hms, hsm⟩
    · cases Option.some.inj hres
      exact ⟨hmv.1, fun _ => hmv.2 h4⟩
    · cases Option.some.inj hres
      refine ⟨hmv.1, fun _ => hmv.2 h4⟩

/-- C7: FD-quota accounting of the consumer handoff.  With a consumer
socket available, a successful ask-channel and a successful reservation,
exactly `DEFAULT_UST_STREAM_FD_NUM (= 2) * expected_stream_count` FD quota
units are reserved; when the subsequent get-channel step fails, exactly
that number of units is released, the consumer is asked to destroy the
channel, and the error is surfaced. -/
theorem c7_fd_quota_accounting (ua_chan : UstAppChannel)
    (o : CreateChannelOracle) (hsock : o.socket_ok = true)
    (hask : 0 ≤ o.ask_ret) (hfd : 0 ≤ o.fd_get_ret) :
    DEFAULT_UST_STREAM_FD_NUM = 2 ∧
    (create_ust_channel ua_chan o).2.1.fd_get_total =
      DEFAULT_UST_STREAM_FD_NUM * o.ask_expected_stream_count ∧
    (o.get_ret < 0 →
      (create_ust_channel ua_chan o).2.1.fd_put_total =
        DEFAULT_UST_STREAM_FD_NUM * o.ask_expected_stream_count ∧
      (create_ust_channel ua_chan o).2.1.destroy_channel_called = true ∧
      (create_ust_channel ua_chan o).2.2 = o.get_ret) := by
  refine ⟨rfl, ?_, ?_⟩
  · unfold create_ust_channel
    split_ifs with h1 h2 h3 h4 h5 h6 h7
    · rw [hsock] at h1
      cases h1
    · exact absurd h2 (by omega)
    · exact absurd h3 (by omega)
    · rfl
    · rfl
    · rfl
    · rfl
    · rfl
  · intro hget
    unfold create_ust_channel
    split_ifs with h1 h2 h3
    · rw [hsock] at h1
      cases h1
    · exact absurd h2 (by omega)
    · exact absurd h3 (by omega)
    · exact ⟨rfl, rfl, rfl⟩

/-- Witness fixture channel for C7. -/
def c7w_chan : UstAppChannel :=
  { name := "chan0", enabled := true, handle := -1, key := 1,
    obj_set := false, attr := zeroAppChannelAttr, is_sent := false,
    expected_stream_count := 0, ctx := [], events := [], streams := [] }

/-- Witness fixture oracle for C7: three expected streams, get-channel
fails with `-ENOMEM`. -/
def c7w_oracle : CreateChannelOracle :=
  { socket_ok := true, ask_ret := 0, ask_expected_stream_count := 3,
    fd_get_ret := 0, get_ret := -ENOMEM, get_streams := [],
    send_stream_rets := [], send_channel_ret := 0, disable_ret := 0 }

/-- Witness for C7 at a concrete input: `expected_stream_count = 3`,
get-channel failing with `-ENOMEM`. -/
theorem c7_fd_quota_accounting_witness :
    DEFAULT_UST_STREAM_FD_NUM = 2 ∧
    (create_ust_channel c7w_chan c7w_oracle).2.1.fd_get_total =
      DEFAULT_UST_STREAM_FD_NUM * c7w_oracle.ask_expected_stream_count ∧
    (c7w_oracle.get_ret < 0 →
      (create_ust_channel c7w_chan c7w_oracle).2.1.fd_put_total =
        DEFAULT_UST_STREAM_FD_NUM * c7w_oracle.ask_expected_stream_count ∧
      (create_ust_channel c7w_chan c7w_oracle).2.1.destroy_channel_called =
        true ∧
      (create_ust_channel c7w_chan c7w_oracle).2.2 = c7w_oracle.get_ret) :=
  c7_fd_quota_accounting c7w_chan c7w_oracle (by decide) (by decide)
    (by decide)

/-! ## Application registry: register and unregister (ust-app.c) -/

/-- `LTTNG_UST_COMM_MAJOR`: the communication protocol major the session
daemon supports ("sessiond supports 2.x"). -/
def LTTNG_UST_COMM_MAJOR : Nat := 2

/-- Modelled from the spec: lookup in a `lttng_ht` ulong-keyed index
(hashtable.c is not among the sources); the index is an association
list. -/
def ht_lookup_ulong {α : Type} : List (Nat × α) → Nat → Option α
  | [], _ => none
  | p :: rest, k => if p.1 = k then some p.2 else ht_lookup_ulong rest k

/-- Modelled from the spec: `lttng_ht_add_replace_ulong`, an insert that
evicts any prior entry under the same key. -/
def ht_add_replace_ulong {α : Type} (ht : List (Nat × α)) (k : Nat) (v : α) :
    List (Nat × α) :=
  ht.filter (fun p => p.1 ≠ k) ++ [(k, v)]

/-- Modelled from the spec: `lttng_ht_add_unique_ulong`, an insert that
asserts the key is fresh; the second component reports the fatal
duplicate-key assertion. -/
def ht_add_unique_ulong {α : Type} (ht : List (Nat × α)) (k : Nat) (v : α) :
    List (Nat × α) × Bool :=
  (ht ++ [(k, v)], ht.any (fun p => p.1 = k))

/-- `struct ust_register_msg`. -/
structure UstRegisterMsg where
  pid : Nat
  ppid : Nat
  uid : Nat
  gid : Nat
  bits_per_long : Nat
  major : Nat
  minor : Nat
  name : String
  deriving DecidableEq, Repr

/-- The registry state: the two indices `ust_app_ht` (by pid) and
`ust_app_ht_by_sock`. -/
structure RegistryState where
  by_pid : List (Nat × UstApp)
  by_sock : List (Nat × UstApp)
  deriving DecidableEq, Repr

/-- Observable effects of `ust_app_register`: return code, whether the
socket was closed, FD quota units released, apps handed to `call_rcu`
teardown, and the fatal duplicate-socket assertion. -/
structure RegisterEffects where
  ret : Int
  socket_closed : Bool
  fd_put : Nat
  teardown_scheduled : List UstApp
  fatal : Bool
  deriving DecidableEq, Repr

/-- The fresh `ust_app` structure `ust_app_register` builds from the
registration message (`compatible = 0` until the version handshake). -/
def registered_app (msg : UstRegisterMsg) (sock : Nat) : UstApp :=
  { pid := msg.pid, ppid := msg.ppid, uid := msg.uid, gid := msg.gid,
    name := msg.name, sock := sock, compatible := false,
    bits_per_long := msg.bits_per_long, v_major := msg.major,
    v_minor := msg.minor, sessions := [], teardown_list := [] }

/-- `ust_app_register` (ust-app.c): refuse (close the socket, release one
FD quota unit, return `-EINVAL`) when no consumer of the message's bitness
is available (the consumer-fd cell holds the `-EINVAL` sentinel) or the
protocol major differs from the supported major; otherwise build the app,
insert it into `by_pid` with replacement and into `by_sock` with the
uniqueness assertion.  No teardown is initiated here. -/
def ust_app_register (st : RegistryState)
    (ust_consumerd64_fd ust_consumerd32_fd : Int) (msg : UstRegisterMsg)
    (sock : Nat) : RegistryState × RegisterEffects :=
  if (msg.bits_per_long = 64 ∧ ust_consumerd64_fd = -EINVAL) ∨
      (msg.bits_per_long = 32 ∧ ust_consumerd32_fd = -EINVAL) then
    (st, { ret := -EINVAL, socket_closed := true, fd_put := 1,
           teardown_scheduled := [], fatal := false })
  else if msg.major ≠ LTTNG_UST_COMM_MAJOR then
    (st, { ret := -EINVAL, socket_closed := true, fd_put := 1,
           teardown_scheduled := [], fatal := false })
  else
    ({ by_pid := ht_add_replace_ulong st.by_pid msg.pid
          (registered_app msg sock),
       by_sock := (ht_add_unique_ulong st.by_sock sock
          (registered_app msg sock)).1 },
     { ret := 0, socket_closed := false, fd_put := 0,
       teardown_scheduled := [],
       fatal := (ht_add_unique_ulong st.by_sock sock
          (registered_app msg sock)).2 })

/-- Observable effects of `ust_app_unregister`. -/
structure UnregisterEffects where
  found : Bool
  teardown_scheduled : List UstApp
  deriving DecidableEq, Repr

/-- The app as handed to deferred reclamation by `ust_app_unregister`:
every still-attached session is moved (prepended, `cds_list_add`) onto the
teardown list. -/
def unregistered_app (lta : UstApp) : UstApp :=
  { lta with
      sessions := [],
      teardown_list :=
        lta.sessions.foldl (fun acc p => p.2 :: acc) lta.teardown_list }

/-- `ust_app_unregister` (ust-app.c): look the app up by socket; remove it
from `by_sock`, remove its own node from `by_pid` (tolerating the case
where an add-replace already displaced it), move the sessions to the
teardown list and schedule deferred reclamation (`call_rcu`). -/
def ust_app_unregister (st : RegistryState) (sock : Nat) :
    RegistryState × UnregisterEffects :=
  match ht_lookup_ulong st.by_sock sock with
  | none => (st, { found := false, teardown_scheduled := [] })
  | some lta =>
      ({ by_pid := st.by_pid.filter (fun p => ¬ (p.1 = lta.pid ∧ p.2 = lta)),
         by_sock := st.by_sock.filter (fun p => p.1 ≠ sock) },
       { found := true, teardown_scheduled := [unregistered_app lta] })

/-- Effects of `delete_ust_app` (the deferred-reclamation callback): the
teardown-list sessions are destroyed, the socket is closed exactly once,
and one FD quota unit is released. -/
structure DeleteAppEffects where
  socket_closed_times : Nat
  fd_put : Nat
  sessions_deleted : List UstAppSession
  deriving DecidableEq, Repr

/-- `delete_ust_app` (ust-app.c), run after the grace period. -/
def delete_ust_app (app : UstApp) : DeleteAppEffects :=
  { socket_closed_times := 1, fd_put := 1,
    sessions_deleted := app.teardown_list }

/-- C4: an invalid registration (no consumer of the message's bitness, or
a major version different from the supported one) closes the socket,
releases exactly one FD quota unit, returns `-EINVAL`, and leaves both
registry indices unchanged. -/
theorem c4_register_invalid (st : RegistryState)
    (ust_consumerd64_fd ust_consumerd32_fd : Int) (msg : UstRegisterMsg)
    (sock : Nat)
    (h : (msg.bits_per_long = 64 ∧ ust_consumerd64_fd = -EINVAL) ∨
         (msg.bits_per_long = 32 ∧ ust_consumerd32_fd = -EINVAL) ∨
         msg.major ≠ LTTNG_UST_COMM_MAJOR) :
    (ust_app_register st ust_consumerd64_fd ust_consumerd32_fd msg
        sock).1 = st ∧
    (ust_app_register st ust_consumerd64_fd ust_consumerd32_fd msg
        sock).2.ret = -EINVAL ∧
    (ust_app_register st ust_consumerd64_fd ust_consumerd32_fd msg
        sock).2.socket_closed = true ∧
    (ust_app_register st ust_consumerd64_fd ust_consumerd32_fd msg
        sock).2.fd_put = 1 := by
  unfold ust_app_register
  split_ifs with h1 h2
  · exact ⟨rfl, rfl, rfl, rfl⟩
  · exact ⟨rfl, rfl, rfl, rfl⟩
  · rcases h with hb | hb | hm
    · exact absurd (Or.inl hb) h1
    · exact absurd (Or.inr hb) h1
    · exact absurd hm h2

/-- Witness fixture message for C4: bitness 64 with a 64-bit consumer
available, but protocol major 99. -/
def c4w_msg : UstRegisterMsg :=
  { pid := 100, ppid := 1, uid := 0, gid := 0, bits_per_long := 64,
    major := 99, minor := 0, name := "app64" }

/-- Witness for C4: register(pid=100, bitness=64, major=99, minor=0) on an
empty registry returns Invalid, closes the socket, releases one FD unit
and leaves `by_pid` unchanged. -/
theorem c4_register_invalid_witness :
    (ust_app_register { by_pid := [], by_sock := [] } 5 7 c4w_msg 9).1 =
      { by_pid := [], by_sock := [] } ∧
    (ust_app_register { by_pid := [], by_sock := [] } 5 7 c4w_msg 9).2.ret =
      -EINVAL ∧
    (ust_app_register { by_pid := [], by_sock := [] } 5 7 c4w_msg
        9).2.socket_closed = true ∧
    (ust_app_register { by_pid := [], by_sock := [] } 5 7 c4w_msg
        9).2.fd_put = 1 :=
  c4_register_invalid { by_pid := [], by_sock := [] } 5 7 c4w_msg 9
    (Or.inr (Or.inr (by decide)))

theorem ht_lookup_ulong_append {α : Type} (l1 l2 : List (Nat × α)) (k : Nat) :
    ht_lookup_ulong (l1 ++ l2) k =
      (match ht_lookup_ulong l1 k with
       | some v => some v
       | none => ht_lookup_ulong l2 k) := by
  induction l1 with
  | nil => rfl
  | cons p l1 ih =>
    by_cases hp : p.1 = k
    · simp [ht_lookup_ulong, hp]
    · simp [ht_lookup_ulong, hp, ih]

theorem ht_lookup_ulong_filter_key (l : List (Nat × UstApp)) (k : Nat) :
    ht_lookup_ulong (l.filter (fun p => p.1 ≠ k)) k = none := by
  induction l with
  | nil => rfl
  | cons p l ih =>
    rw [List.filter_cons]
    by_cases hp : p.1 = k
    · rw [if_neg (by simp [hp])]
      exact ih
    · rw [if_pos (by simp [hp])]
      simp only [ht_lookup_ulong, if_neg hp]
      exact ih

theorem ht_lookup_ulong_replace_self (l : List (Nat × UstApp)) (k : Nat)
    (v : UstApp) : ht_lookup_ulong (ht_add_replace_ulong l k v) k = some v := by
  unfold ht_add_replace_ulong
  rw [ht_lookup_ulong_append, ht_lookup_ulong_filter_key]
  simp [ht_lookup_ulong]

theorem ht_lookup_ulong_some_any (l : List (Nat × UstApp)) (k : Nat)
    (v : UstApp) (h : ht_lookup_ulong l k = some v) :
    l.any (fun p => p.1 = k) = true := by
  induction l with
  | nil => cases h
  | cons p l ih =>
    by_cases hp : p.1 = k
    · simp [hp]
    · simp only [ht_lookup_ulong, if_neg hp] at h
      simp [hp, ih h]

/-- Counterexample fixture for C5: the app registered first, under pid 100
with socket 1. -/
def c5x_oldapp : UstApp :=
  { pid := 100, ppid := 1, uid := 0, gid := 0, name := "old", sock := 1,
    compatible := true, bits_per_long := 64, v_major := 2, v_minor := 0,
    sessions := [], teardown_list := [] }

/-- Counterexample fixture for C5: registry holding the old app in both
indices. -/
def c5x_st : RegistryState :=
  { by_pid := [(100, c5x_oldapp)], by_sock := [(1, c5x_oldapp)] }

/-- Counterexample fixture for C5: a re-registration message for the same
pid. -/
def c5x_msg : UstRegisterMsg :=
  { pid := 100, ppid := 1, uid := 0, gid := 0, bits_per_long := 64,
    major := 2, minor := 0, name := "new" }

/-- C5 counterexample: re-registering pid 100 on a fresh socket 2 succeeds
and displaces the old app from `by_pid`, but `ust_app_register` initiates
no teardown of the displaced app: nothing is handed to deferred
reclamation and the old app remains reachable through `by_sock`. -/
theorem c5_register_teardown_counterexample :
    (ust_app_register c5x_st 5 7 c5x_msg 2).2.ret = 0 ∧
    ht_lookup_ulong (ust_app_register c5x_st 5 7 c5x_msg 2).1.by_pid 100 =
      some (registered_app c5x_msg 2) ∧
    (ust_app_register c5x_st 5 7 c5x_msg 2).2.teardown_scheduled = [] ∧
    ht_lookup_ulong (ust_app_register c5x_st 5 7 c5x_msg 2).1.by_sock 1 =
      some c5x_oldapp := by
  refine ⟨by decide, by decide, by decide, by decide⟩

/-- C5 as amended: a successful registration inserts the new App into
`by_pid` with replacement (displacing an older App of the same pid) and
into `by_sock` with the uniqueness requirement (a duplicate socket id is a
fatal assertion); the displaced App remains reachable through `by_sock`
and registration itself initiates no teardown; its teardown is initiated
by `ust_app_unregister` on its old socket, after which lookup by that
socket returns nothing and deferred reclamation closes that socket exactly
once, releasing one FD quota unit. -/
theorem c5_registration_replacement (st : RegistryState)
    (fd64 fd32 : Int) (msg : UstRegisterMsg) (s1 s2 : Nat) (oldApp : UstApp)
    (hbits : ¬ ((msg.bits_per_long = 64 ∧ fd64 = -EINVAL) ∨
                (msg.bits_per_long = 32 ∧ fd32 = -EINVAL)))
    (hmajor : msg.major = LTTNG_UST_COMM_MAJOR)
    (hsock_old : ht_lookup_ulong st.by_sock s1 = some oldApp)
    (hfresh : ∀ p ∈ st.by_sock, p.1 ≠ s2) :
    ht_lookup_ulong (ust_app_register st fd64 fd32 msg s2).1.by_pid
        msg.pid = some (registered_app msg s2) ∧
    (ust_app_register st fd64 fd32 msg s2).2.teardown_scheduled = [] ∧
    (ust_app_register st fd64 fd32 msg s2).2.fatal = false ∧
    ht_lookup_ulong (ust_app_register st fd64 fd32 msg s2).1.by_sock s1 =
      some oldApp ∧
    (ust_app_unregister (ust_app_register st fd64 fd32 msg s2).1
        s1).2.found = true ∧
    (ust_app_unregister (ust_app_register st fd64 fd32 msg s2).1
        s1).2.teardown_scheduled = [unregistered_app oldApp] ∧
    ht_lookup_ulong
      (ust_app_unregister (ust_app_register st fd64 fd32 msg s2).1
        s1).1.by_sock s1 = none ∧
    (delete_ust_app (unregistered_app oldApp)).socket_closed_times = 1 ∧
    (delete_ust_app (unregistered_app oldApp)).fd_put = 1 ∧
    (∀ (st' : RegistryState) (msg' : UstRegisterMsg) (sock' : Nat)
        (v : UstApp),
      ht_lookup_ulong st'.by_sock sock' = some v →
      ¬ ((msg'.bits_per_long = 64 ∧ fd64 = -EINVAL) ∨
         (msg'.bits_per_long = 32 ∧ fd32 = -EINVAL)) →
      msg'.major = LTTNG_UST_COMM_MAJOR →
      (ust_app_register st' fd64 fd32 msg' sock').2.fatal = true) := by
  have hreg : ust_app_register st fd64 fd32 msg s2 =
      ({ by_pid := ht_add_replace_ulong st.by_pid msg.pid
            (registered_app msg s2),
         by_sock := st.by_sock ++ [(s2, registered_app msg s2)] },
       { ret := 0, socket_closed := false, fd_put := 0,
         teardown_scheduled := [],
         fatal := st.by_sock.any (fun p => p.1 = s2) }) := by
    unfold ust_app_register
    rw [if_neg hbits, if_neg (by simp [hmajor])]
    rfl
  have hfatal : st.by_sock.any (fun p => p.1 = s2) = false := by
    rw [List.any_eq_false]
    intro p hp
    simpa using hfresh p hp
  have hsock_app : ht_lookup_ulong
      (st.by_sock ++ [(s2, registered_app msg s2)]) s1 = some oldApp := by
    rw [ht_lookup_ulong_append, hsock_old]
  have hunreg : ust_app_unregister
      (ust_app_register st fd64 fd32 msg s2).1 s1 =
      ({ by_pid := (ht_add_replace_ulong st.by_pid msg.pid
            (registered_app msg s2)).filter
            (fun p => ¬ (p.1 = oldApp.pid ∧ p.2 = oldApp)),
         by_sock := (st.by_sock ++
            [(s2, registered_app msg s2)]).filter (fun p => p.1 ≠ s1) },
       { found := true, teardown_scheduled := [unregistered_app oldApp] }) := by
    rw [hreg]
    simp only [ust_app_unregister, hsock_app]
  refine ⟨?_, ?_, ?_, ?_, ?_, ?_, ?_, rfl, rfl, ?_⟩
  · rw [hreg]
    exact ht_lookup_ulong_replace_self st.by_pid msg.pid
      (registered_app msg s2)
  · rw [hreg]
  · rw [hreg]
    exact hfatal
  · rw [hreg]
    exact hsock_app
  · rw [hunreg]
  · rw [hunreg]
  · rw [hunreg]
    exact ht_lookup_ulong_filter_key _ s1
  · intro st' msg' sock' v hv hb hm
    unfold ust_app_register
    rw [if_neg hb, if_neg (by simp [hm])]
    exact ht_lookup_ulong_some_any st'.by_sock sock' v hv

/-- Witness fixture for C5: the old app for the amended theorem. -/
def c5w_oldapp : UstApp :=
  { pid := 100, ppid := 1, uid := 0, gid := 0, name := "old", sock := 1,
    compatible := true, bits_per_long := 64, v_major := 2, v_minor := 0,
    sessions := [], teardown_list := [] }

/-- Witness fixture registry for C5. -/
def c5w_st : RegistryState :=
  { by_pid := [(100, c5w_oldapp)], by_sock := [(1, c5w_oldapp)] }

/-- Witness fixture re-registration message for C5. -/
def c5w_msg : UstRegisterMsg :=
  { pid := 100, ppid := 1, uid := 0, gid := 0, bits_per_long := 64,
    major := 2, minor := 0, name := "new" }

/-- Witness for the amended C5 at a concrete input: pid 100 re-registered
from socket 1 to socket 2. -/
theorem c5_registration_replacement_witness :
    ht_lookup_ulong (ust_app_register c5w_st 5 7 c5w_msg 2).1.by_pid
        c5w_msg.pid = some (registered_app c5w_msg 2) ∧
    (ust_app_register c5w_st 5 7 c5w_msg 2).2.teardown_scheduled = [] ∧
    (ust_app_register c5w_st 5 7 c5w_msg 2).2.fatal = false ∧
    ht_lookup_ulong (ust_app_register c5w_st 5 7 c5w_msg 2).1.by_sock 1 =
      some c5w_oldapp ∧
    (ust_app_unregister (ust_app_register c5w_st 5 7 c5w_msg 2).1
        1).2.found = true ∧
    (ust_app_unregister (ust_app_register c5w_st 5 7 c5w_msg 2).1
        1).2.teardown_scheduled = [unregistered_app c5w_oldapp] ∧
    ht_lookup_ulong
      (ust_app_unregister (ust_app_register c5w_st 5 7 c5w_msg 2).1
        1).1.by_sock 1 = none ∧
    (delete_ust_app (unregistered_app c5w_oldapp)).socket_closed_times = 1 ∧
    (delete_ust_app (unregistered_app c5w_oldapp)).fd_put = 1 ∧
    (∀ (st' : RegistryState) (msg' : UstRegisterMsg) (sock' : Nat)
        (v : UstApp),
      ht_lookup_ulong st'.by_sock sock' = some v →
      ¬ ((msg'.bits_per_long = 64 ∧ (5 : Int) = -EINVAL) ∨
         (msg'.bits_per_long = 32 ∧ (7 : Int) = -EINVAL)) →
      msg'.major = LTTNG_UST_COMM_MAJOR →
      (ust_app_register st' 5 7 msg' sock').2.fatal = true) :=
  c5_registration_replacement c5w_st 5 7 c5w_msg 1 2 c5w_oldapp
    (by decide) (by decide) (by decide) (by decide)

/-! ## `ust_app_stop_trace` (ust-app.c) -/

/-- One tracer-driver call made by `ust_app_stop_trace`, recorded in
order. -/
inductive DriverCall where
  | stopSession
  | waitQuiescent
  | flushChannel (name : String)
  | flushMetadata
  deriving DecidableEq, Repr

/-- The "application vanished" error classification: `-EPIPE` or
`-LTTNG_UST_ERR_EXITING`. -/
def isAppVanished (r : Int) : Bool :=
  r == -EPIPE || r == -LTTNG_UST_ERR_EXITING

/-- Oracle for the tracer calls of `ust_app_stop_trace`:
`ustctl_stop_session`, `ustctl_wait_quiescent`, one
`ustctl_sock_flush_buffer` result per data channel (by position) and one
for the metadata channel. -/
structure StopTraceOracle where
  stop_ret : Int
  quiescent_ret : Int
  flush_rets : List Int
  metadata_flush_ret : Int
  deriving DecidableEq, Repr

/-- Result of `ust_app_stop_trace`: the driver calls made in order, the
return value, and whether an assertion (`assert(is_sent)`) or the null
metadata dereference aborted the run (`ret` is meaningless when
`fatal`). -/
structure StopTraceResult where
  calls : List DriverCall
  ret : Int
  fatal : Bool
  deriving DecidableEq, Repr

/-- The data-channel flush loop of `ust_app_stop_trace`: assert `is_sent`,
flush each buffer; a failure classified app-vanished ends the loop early
(`goto end`), any other failure continues with the next buffer.  Returns
the flush calls made, whether the loop ended early, and whether the
assertion failed. -/
def flush_channels_loop :
    List UstAppChannel → List Int → Nat → List DriverCall × Bool × Bool
  | [], _, _ => ([], false, false)
  | ch :: rest, rets, i =>
      if !ch.is_sent then ([], false, true)
      else if rets.getD i 0 < 0 ∧ isAppVanished (rets.getD i 0) = true then
        ([DriverCall.flushChannel ch.name], true, false)
      else
        ((DriverCall.flushChannel ch.name) ::
            (flush_channels_loop rest rets (i + 1)).1,
         (flush_channels_loop rest rets (i + 1)).2.1,
         (flush_channels_loop rest rets (i + 1)).2.2)

/-- The metadata flush at the end of `ust_app_stop_trace`: assert the
metadata channel exists and `is_sent`, flush it; a non-vanished failure
returns the error path (-1), a vanished failure falls through to
success. -/
def stop_trace_metadata_part (calls_done : List DriverCall)
    (metadata : Option UstAppChannel) (mret : Int) : StopTraceResult :=
  match metadata with
  | none => { calls := calls_done, ret := 0, fatal := true }
  | some md =>
      if !md.is_sent then { calls := calls_done, ret := 0, fatal := true }
      else if mret < 0 ∧ isAppVanished mret = false then
        { calls := calls_done ++ [DriverCall.flushMetadata], ret := -1,
          fatal := false }
      else
        { calls := calls_done ++ [DriverCall.flushMetadata], ret := 0,
          fatal := false }

/-- `ust_app_stop_trace` (ust-app.c): a no-op for an incompatible app or a
missing app session; an error for a session never started; otherwise stop
the session (failure aborts with -1), wait quiescent (result only logged),
flush every data channel's buffer (app-vanished ends the loop early with
success), and finally flush the metadata buffer. -/
def ust_app_stop_trace (compatible : Bool) :
    Option UstAppSession → StopTraceOracle → StopTraceResult
  | none, _ => { calls := [], ret := 0, fatal := false }
  | some s, o =>
      if !compatible then { calls := [], ret := 0, fatal := false }
      else if !s.started then { calls := [], ret := -1, fatal := false }
      else if o.stop_ret < 0 then
        { calls := [DriverCall.stopSession], ret := -1, fatal := false }
      else if (flush_channels_loop s.channels o.flush_rets 0).2.2 then
        { calls := DriverCall.stopSession :: DriverCall.waitQuiescent ::
            (flush_channels_loop s.channels o.flush_rets 0).1,
          ret := 0, fatal := true }
      else if (flush_channels_loop s.channels o.flush_rets 0).2.1 then
        { calls := DriverCall.stopSession :: DriverCall.waitQuiescent ::
            (flush_channels_loop s.channels o.flush_rets 0).1,
          ret := 0, fatal := false }
      else
        stop_trace_metadata_part
          (DriverCall.stopSession :: DriverCall.waitQuiescent ::
            (flush_channels_loop s.channels o.flush_rets 0).1)
          s.metadata o.metadata_flush_ret

/-- The flush of data channel `n` triggers the app-vanished early end. -/
def flushVanishAt (rets : List Int) (n : Nat) : Prop :=
  rets.getD n 0 < 0 ∧ isAppVanished (rets.getD n 0) = true

theorem flush_channels_loop_no_vanish (l : List UstAppChannel)
    (rets : List Int) (base : Nat)
    (hsent : ∀ ch ∈ l, ch.is_sent = true)
    (hnv : ∀ i, i < l.length → ¬ flushVanishAt rets (base + i)) :
    flush_channels_loop l rets base =
      (l.map (fun ch => DriverCall.flushChannel ch.name), false, false) := by
  induction l generalizing base with
  | nil => rfl
  | cons ch rest ih =>
    unfold flush_channels_loop
    rw [if_neg (by simp [hsent ch (List.mem_cons_self ch rest)])]
    rw [if_neg (by
      have := hnv 0 (by simp)
      simpa [flushVanishAt] using this)]
    rw [ih (base + 1) (fun c hc => hsent c (List.mem_cons_of_mem ch hc))
      (fun i hi => by
        have hstep := hnv (i + 1) (by simp; omega)
        have harith : base + (i + 1) = base + 1 + i := by omega
        rw [harith] at hstep
        exact hstep)]
    simp

theorem flush_channels_loop_vanish_at (l : List UstAppChannel)
    (rets : List Int) (base j : Nat)
    (hsent : ∀ ch ∈ l, ch.is_sent = true)
    (hj : j < l.length)
    (hbefore : ∀ i, i < j → ¬ flushVanishAt rets (base + i))
    (hat : flushVanishAt rets (base + j)) :
    flush_channels_loop l rets base =
      ((l.take (j + 1)).map (fun ch => DriverCall.flushChannel ch.name),
       true, false) := by
  induction l generalizing base j with
  | nil => cases hj
  | cons ch rest ih =>
    unfold flush_channels_loop
    rw [if_neg (by simp [hsent ch (List.mem_cons_self ch rest)])]
    rcases Nat.eq_zero_or_pos j with hj0 | hjpos
    · subst hj0
      rw [if_pos (by simpa [flushVanishAt] using hat)]
      simp
    · obtain ⟨j', rfl⟩ : ∃ j', j = j' + 1 :=
        ⟨j - 1, by omega⟩
      rw [if_neg (by
        have := hbefore 0 (by omega)
        simpa [flushVanishAt] using this)]
      rw [ih (base + 1) j'
        (fun c hc => hsent c (List.mem_cons_of_mem ch hc))
        (by simp at hj; omega)
        (fun i hi => by
          have hstep := hbefore (i + 1) (by omega)
          have harith : base + (i + 1) = base + 1 + i := by omega
          rw [harith] at hstep
          exact hstep)
        (by
          have harith : base + (j' + 1) = base + 1 + j' := by omega
          rw [harith] at hat
          exact hat)]
      simp

/-- C6: `ust_app_stop_trace` control flow.  (1) On a session never
started, it fails (-1) without any tracer call.  (2) Otherwise it calls
`stop_session`, then `wait_quiescent`, then flushes every data channel's
buffer in order and finally the metadata buffer; a non-vanished flush
failure continues with the next buffer, and the function succeeds unless
the metadata flush fails with a non-vanished error.  (3) A data-channel
flush failure classified app-vanished (EPIPE/EXITING) ends the flush loop
early — later channels and the metadata are not flushed — and the function
still returns success. -/
theorem c6_stop_trace_flush_order :
    (∀ (s : UstAppSession) (o : StopTraceOracle),
      s.started = false →
      ust_app_stop_trace true (some s) o =
        { calls := [], ret := -1, fatal := false }) ∧
    (∀ (s : UstAppSession) (o : StopTraceOracle) (md : UstAppChannel),
      s.started = true → 0 ≤ o.stop_ret →
      (∀ ch ∈ s.channels, ch.is_sent = true) →
      (∀ i, i < s.channels.length → ¬ flushVanishAt o.flush_rets i) →
      s.metadata = some md → md.is_sent = true →
      (ust_app_stop_trace true (some s) o).calls =
        DriverCall.stopSession :: DriverCall.waitQuiescent ::
          (s.channels.map (fun ch => DriverCall.flushChannel ch.name) ++
            [DriverCall.flushMetadata]) ∧
      (ust_app_stop_trace true (some s) o).ret =
        (if o.metadata_flush_ret < 0 ∧
            isAppVanished o.metadata_flush_ret = false then -1 else 0)) ∧
    (∀ (s : UstAppSession) (o : StopTraceOracle) (j : Nat),
      s.started = true → 0 ≤ o.stop_ret →
      (∀ ch ∈ s.channels, ch.is_sent = true) →
      j < s.channels.length →
      (∀ i, i < j → ¬ flushVanishAt o.flush_rets i) →
      flushVanishAt o.flush_rets j →
      (ust_app_stop_trace true (some s) o).calls =
        DriverCall.stopSession :: DriverCall.waitQuiescent ::
          (s.channels.take (j + 1)).map
            (fun ch => DriverCall.flushChannel ch.name) ∧
      (ust_app_stop_trace true (some s) o).ret = 0) := by
  refine ⟨?_, ?_, ?_⟩
  · intro s o hns
    simp only [ust_app_stop_trace]
    rw [if_neg (by simp), if_pos (by simp [hns])]
  · intro s o md hst hstop hsent hnv hmd hmds
    have hloop := flush_channels_loop_no_vanish s.channels o.flush_rets 0
      hsent (fun i hi => by simpa using hnv i hi)
    simp only [ust_app_stop_trace]
    rw [if_neg (by simp), if_neg (by simp [hst]),
      if_neg (by omega), hloop]
    simp only [Bool.false_eq_true, if_false, stop_trace_metadata_part, hmd]
    rw [if_neg (by simp [hmds])]
    split_ifs with hmret
    · exact ⟨by simp, rfl⟩
    · exact ⟨by simp, rfl⟩
  · intro s o j hst hstop hsent hj hbefore hat
    have hloop := flush_channels_loop_vanish_at s.channels o.flush_rets 0 j
      hsent hj (fun i hi => by simpa using hbefore i hi)
      (by simpa using hat)
    simp only [ust_app_stop_trace]
    rw [if_neg (by simp), if_neg (by simp [hst]),
      if_neg (by omega), hloop]
    exact ⟨rfl, rfl⟩

/-! ## Enumeration: `ust_app_list_events` and `ust_app_list_event_fields`
(ust-app.c) -/

/-- `UST_APP_EVENT_LIST_SIZE` (ust-app.h): the initial enumeration buffer
size; only its positivity matters to the control flow. -/
def UST_APP_EVENT_LIST_SIZE : Nat := 128

/-- `LTTNG_UST_TRACEPOINT` instrumentation kind value. -/
def LTTNG_UST_TRACEPOINT : Nat := 0

/-- One result of a `ustctl_tracepoint_list_get` /
`ustctl_tracepoint_field_list_get` call: an entry, or a negative error
other than `-LTTNG_UST_ERR_NOENT`; the end of the oracle list is the
`-LTTNG_UST_ERR_NOENT` end of the listing. -/
inductive TracepointIterStep (α : Type) where
  | entry (e : α)
  | err (code : Int)
  deriving DecidableEq, Repr

/-- Per-app oracle for one enumeration: the app's pid and compatibility
flag, the handle returned by the list call, and the per-entry get
results. -/
structure ListAppOracle (α : Type) where
  pid : Nat
  compatible : Bool
  handle_ret : Int
  steps : List (TracepointIterStep α)
  deriving DecidableEq, Repr

/-- The enumeration buffer state: entries written, capacity, number of
geometric growths performed, and the collected entries. -/
structure EnumState (β : Type) where
  count : Nat
  nbmem : Nat
  grows : Nat
  collected : List β
  deriving DecidableEq, Repr

/-- Result of an enumeration: the return value (entry count, or a negative
error), whether the temporary buffer was freed on the error path, and the
entries delivered to the caller. -/
structure EnumResult (β : Type) where
  ret : Int
  freed : Bool
  entries : List β
  deriving DecidableEq, Repr

/-- The initial enumeration buffer. -/
def enum_init_state (β : Type) : EnumState β :=
  { count := 0, nbmem := UST_APP_EVENT_LIST_SIZE, grows := 0,
    collected := [] }

/-- The per-entry get loop shared by both enumeration operations: loop
until `-LTTNG_UST_ERR_NOENT`; any error frees the buffer and aborts the
whole listing with that error; on overflow grow the buffer by 2
(`realloc`), and when the growth allocation fails free the buffer and
abort with `-ENOMEM`; otherwise record the entry. -/
def tracepoint_get_loop {α β : Type} (mk : α → β) (realloc_ok : Nat → Bool) :
    List (TracepointIterStep α) → EnumState β → EnumState β × Option Int
  | [], st => (st, none)
  | TracepointIterStep.err c :: _, st => (st, some c)
  | TracepointIterStep.entry e :: rest, st =>
      if st.nbmem ≤ st.count then
        if !realloc_ok st.grows then (st, some (-ENOMEM))
        else
          tracepoint_get_loop mk realloc_ok rest
            { st with
                nbmem := 2 * st.nbmem,
                grows := st.grows + 1,
                count := st.count + 1,
                collected := st.collected ++ [mk e] }
      else
        tracepoint_get_loop mk realloc_ok rest
          { st with
              count := st.count + 1,
              collected := st.collected ++ [mk e] }

/-- The per-app loop shared by both enumeration operations: skip apps that
are not compatible and apps whose list call failed (vanished or not);
otherwise run the get loop, aborting the whole listing when it reports an
error. -/
def app_list_loop {α β : Type} (mk : Nat → α → β) (realloc_ok : Nat → Bool) :
    List (ListAppOracle α) → EnumState β → EnumState β × Option Int
  | [], st => (st, none)
  | a :: rest, st =>
      if !a.compatible then app_list_loop mk realloc_ok rest st
      else if a.handle_ret < 0 then app_list_loop mk realloc_ok rest st
      else
        match tracepoint_get_loop (mk a.pid) realloc_ok a.steps st with
        | (st', none) => app_list_loop mk realloc_ok rest st'
        | (st', some c) => (st', some c)

/-- The shared skeleton of `ust_app_list_events` and
`ust_app_list_event_fields`: allocate the initial buffer (failure is
`-ENOMEM` with nothing to free), run the per-app loop, and return the
entry count on success. -/
def ust_app_enum {α β : Type} (mk : Nat → α → β)
    (apps : List (ListAppOracle α)) (alloc0 : Bool)
    (realloc_ok : Nat → Bool) : EnumResult β :=
  if !alloc0 then { ret := -ENOMEM, freed := false, entries := [] }
  else
    match app_list_loop mk realloc_ok apps (enum_init_state β) with
    | (st, none) => { ret := st.count, freed := false,
                      entries := st.collected }
    | (_, some c) => { ret := c, freed := true, entries := [] }

/-- The fields of `struct lttng_ust_tracepoint_iter` the listing reads. -/
structure UstTracepointIter where
  name : String
  loglevel : Int
  deriving DecidableEq, Repr

/-- The `struct lttng_event` entry built by `ust_app_list_events`. -/
structure LttngEvent where
  name : String
  loglevel : Int
  type : Nat
  pid : Nat
  enabled : Int
  deriving DecidableEq, Repr

/-- The per-entry record of `ust_app_list_events`: name and loglevel from
the tracer iterator, type TRACEPOINT, the app's pid, `enabled = -1`. -/
def mk_event_entry (pid : Nat) (u : UstTracepointIter) : LttngEvent :=
  { name := u.name, loglevel := u.loglevel, type := LTTNG_UST_TRACEPOINT,
    pid := pid, enabled := -1 }

/-- `ust_app_list_events` (ust-app.c). -/
def ust_app_list_events (apps : List (ListAppOracle UstTracepointIter))
    (alloc0 : Bool) (realloc_ok : Nat → Bool) : EnumResult LttngEvent :=
  ust_app_enum mk_event_entry apps alloc0 realloc_ok

/-- The fields of `struct lttng_ust_field_iter` the listing reads. -/
structure UstFieldIter where
  field_name : String
  type : Nat
  nowrite : Int
  event_name : String
  loglevel : Int
  deriving DecidableEq, Repr

/-- The `struct lttng_event_field` entry built by
`ust_app_list_event_fields`. -/
structure LttngEventField where
  field_name : String
  type : Nat
  nowrite : Int
  event : LttngEvent
  deriving DecidableEq, Repr

/-- The per-entry record of `ust_app_list_event_fields`: field name, type
and nowrite from the tracer iterator, plus the nested event metadata. -/
def mk_event_field_entry (pid : Nat) (u : UstFieldIter) : LttngEventField :=
  { field_name := u.field_name, type := u.type, nowrite := u.nowrite,
    event := { name := u.event_name, loglevel := u.loglevel,
               type := LTTNG_UST_TRACEPOINT, pid := pid, enabled := -1 } }

/-- `ust_app_list_event_fields` (ust-app.c). -/
def ust_app_list_event_fields (apps : List (ListAppOracle UstFieldIter))
    (alloc0 : Bool) (realloc_ok : Nat → Bool) : EnumResult LttngEventField :=
  ust_app_enum mk_event_field_entry apps alloc0 realloc_ok

/-- Counterexample fixture for C8: first app's get loop fails with
`-EPIPE` immediately. -/
def c8x_app1 : ListAppOracle UstTracepointIter :=
  { pid := 1, compatible := true, handle_ret := 0,
    steps := [TracepointIterStep.err (-EPIPE)] }

/-- Counterexample fixture for C8: a healthy second app with one
tracepoint. -/
def c8x_app2 : ListAppOracle UstTracepointIter :=
  { pid := 2, compatible := true, handle_ret := 0,
    steps := [TracepointIterStep.entry { name := "ev", loglevel := 5 }] }

/-- C8 counterexample: an app-vanished error (`-EPIPE`) in the per-entry
get loop of `ust_app_list_events` does not continue with the next app: the
whole listing fails with `-EPIPE`, the partial buffer is freed, and the
healthy second app's tracepoint is never delivered. -/
theorem c8_list_events_vanished_counterexample :
    (ust_app_list_events [c8x_app1, c8x_app2] true (fun _ => true)).ret =
      -EPIPE ∧
    (ust_app_list_events [c8x_app1, c8x_app2] true (fun _ => true)).freed =
      true ∧
    (ust_app_list_events [c8x_app1, c8x_app2] true
      (fun _ => true)).entries = [] := by
  refine ⟨by decide, by decide, by decide⟩

/-- C8 as amended.  (1)/(2) A failed per-app list-handle call — vanished
or not — skips the app and continues with the next one, in both
enumeration operations.  (3)/(4) An error from the per-entry get loop
(including app-vanished) frees the partial buffer and fails the whole
listing with that error.  (5) An out-of-memory during geometric buffer
growth aborts the get loop with `-ENOMEM`, which by (3)/(4) frees the
partial buffer and is returned as the fatal error. -/
theorem c8_enumeration_error_policy :
    (∀ (a : ListAppOracle UstTracepointIter)
        (rest : List (ListAppOracle UstTracepointIter)) (alloc0 : Bool)
        (realloc_ok : Nat → Bool),
      a.compatible = false ∨ a.handle_ret < 0 →
      ust_app_list_events (a :: rest) alloc0 realloc_ok =
        ust_app_list_events rest alloc0 realloc_ok) ∧
    (∀ (a : ListAppOracle UstFieldIter)
        (rest : List (ListAppOracle UstFieldIter)) (alloc0 : Bool)
        (realloc_ok : Nat → Bool),
      a.compatible = false ∨ a.handle_ret < 0 →
      ust_app_list_event_fields (a :: rest) alloc0 realloc_ok =
        ust_app_list_event_fields rest alloc0 realloc_ok) ∧
    (∀ (a : ListAppOracle UstTracepointIter)
        (rest : List (ListAppOracle UstTracepointIter))
        (realloc_ok : Nat → Bool) (c : Int),
      a.compatible = true → 0 ≤ a.handle_ret →
      (tracepoint_get_loop (mk_event_entry a.pid) realloc_ok a.steps
          (enum_init_state LttngEvent)).2 = some c →
      (ust_app_list_events (a :: rest) true realloc_ok).ret = c ∧
      (ust_app_list_events (a :: rest) true realloc_ok).freed = true ∧
      (ust_app_list_events (a :: rest) true realloc_ok).entries = []) ∧
    (∀ (a : ListAppOracle UstFieldIter)
        (rest : List (ListAppOracle UstFieldIter))
        (realloc_ok : Nat → Bool) (c : Int),
      a.compatible = true → 0 ≤ a.handle_ret →
      (tracepoint_get_loop (mk_event_field_entry a.pid) realloc_ok a.steps
          (enum_init_state LttngEventField)).2 = some c →
      (ust_app_list_event_fields (a :: rest) true realloc_ok).ret = c ∧
      (ust_app_list_event_fields (a :: rest) true realloc_ok).freed =
        true ∧
      (ust_app_list_event_fields (a :: rest) true realloc_ok).entries =
        []) ∧
    (∀ (α β : Type) (mk : α → β) (realloc_ok : Nat → Bool)
        (e : α) (ts : List (TracepointIterStep α)) (st : EnumState β),
      st.nbmem ≤ st.count → realloc_ok st.grows = false →
      tracepoint_get_loop mk realloc_ok
          (TracepointIterStep.entry e :: ts) st = (st, some (-ENOMEM))) := by
  refine ⟨?_, ?_, ?_, ?_, ?_⟩
  · intro a rest alloc0 realloc_ok h
    unfold ust_app_list_events ust_app_enum
    rcases Bool.eq_false_or_eq_true alloc0 with ha | ha
    · rw [ha]
      have hskip : app_list_loop mk_event_entry realloc_ok (a :: rest)
          (enum_init_state LttngEvent) =
          app_list_loop mk_event_entry realloc_ok rest
            (enum_init_state LttngEvent) := by
        simp only [app_list_loop]
        rcases h with h | h
        · rw [if_pos (by simp [h])]
        · by_cases hc : a.compatible = true
          · rw [if_neg (by simp [hc]), if_pos h]
          · rw [if_pos (by simp [Bool.eq_false_iff.mpr hc])]
      rw [hskip]
    · rw [ha]
      rfl
  · intro a rest alloc0 realloc_ok h
    unfold ust_app_list_event_fields ust_app_enum
    rcases Bool.eq_false_or_eq_true alloc0 with ha | ha
    · rw [ha]
      have hskip : app_list_loop mk_event_field_entry realloc_ok (a :: rest)
          (enum_init_state LttngEventField) =
          app_list_loop mk_event_field_entry realloc_ok rest
            (enum_init_state LttngEventField) := by
        simp only [app_list_loop]
        rcases h with h | h
        · rw [if_pos (by simp [h])]
        · by_cases hc : a.compatible = true
          · rw [if_neg (by simp [hc]), if_pos h]
          · rw [if_pos (by simp [Bool.eq_false_iff.mpr hc])]
      rw [hskip]
    · rw [ha]
      rfl
  · intro a rest realloc_ok c hc hh hloop
    unfold ust_app_list_events ust_app_enum
    have habort : app_list_loop mk_event_entry realloc_ok (a :: rest)
        (enum_init_state LttngEvent) =
        ((tracepoint_get_loop (mk_event_entry a.pid) realloc_ok a.steps
            (enum_init_state LttngEvent)).1, some c) := by
      simp only [app_list_loop]
      rw [if_neg (by simp [hc]), if_neg (by omega)]
      rcases hres : tracepoint_get_loop (mk_event_entry a.pid) realloc_ok
          a.steps (enum_init_state LttngEvent) with ⟨st', r⟩
      rw [hres] at hloop
      simp only at hloop
      rw [hloop]
    rw [habort]
    exact ⟨rfl, rfl, rfl⟩
  · intro a rest realloc_ok c hc hh hloop
    unfold ust_app_list_event_fields ust_app_enum
    have habort : app_list_loop mk_event_field_entry realloc_ok (a :: rest)
        (enum_init_state LttngEventField) =
        ((tracepoint_get_loop (mk_event_field_entry a.pid) realloc_ok
            a.steps (enum_init_state LttngEventField)).1, some c) := by
      simp only [app_list_loop]
      rw [if_neg (by simp [hc]), if_neg (by omega)]
      rcases hres : tracepoint_get_loop (mk_event_field_entry a.pid)
          realloc_ok a.steps (enum_init_state LttngEventField) with ⟨st', r⟩
      rw [hres] at hloop
      simp only at hloop
      rw [hloop]
    rw [habort]
    exact ⟨rfl, rfl, rfl⟩
  · intro α β mk realloc_ok e ts st hfull hfail
    unfold tracepoint_get_loop
    rw [if_pos hfull, if_pos (by simp [hfail])]

/-! ## Kernel consumer metadata handoff (kernel-consumer.c) -/

/-- `enum consumer_dst_type`. -/
inductive ConsumerDstType where
  | local
  | network
  deriving DecidableEq, Repr

/-- The part of `struct consumer_output` the handoff reads. -/
structure ConsumerOutput where
  type : ConsumerDstType
  trace_path : String
  subdir : String
  net_seq_index : Nat
  enabled : Bool
  deriving DecidableEq, Repr

/-- The part of `struct ltt_kernel_session` the metadata handoff reads:
the metadata channel fd, the metadata stream fd, ids and the consumer
output. -/
structure LttKernelSession where
  id : Nat
  uid : Nat
  gid : Nat
  metadata_fd : Int
  metadata_stream_fd : Int
  consumer : ConsumerOutput
  deriving DecidableEq, Repr

/-- The consumer control commands sent here. -/
inductive ConsumerCommand where
  | addChannel
  | addStream
  deriving DecidableEq, Repr

/-- `enum consumer_channel_type`. -/
inductive ConsumerChannelType where
  | data
  | metadata
  deriving DecidableEq, Repr

/-- `DEFAULT_KERNEL_CHANNEL_OUTPUT` (common/defaults.h); the value is
opaque to the control flow. -/
def DEFAULT_KERNEL_CHANNEL_OUTPUT : Nat := 0

/-- The ADD_CHANNEL control record as laid out by
`consumer_init_channel_comm_msg`. -/
structure ChannelCommMsg where
  cmd : ConsumerCommand
  channel_key : Int
  session_id : Nat
  path : String
  uid : Nat
  gid : Nat
  net_index : Nat
  name : String
  stream_count : Nat
  output : Nat
  channel_type : ConsumerChannelType
  tracefile_size : Nat
  tracefile_count : Nat
  deriving DecidableEq, Repr

/-- The ADD_STREAM control record as laid out by
`consumer_init_stream_comm_msg` (`no_monitor` is zeroed by the init and
set afterwards by the caller). -/
structure StreamCommMsg where
  cmd : ConsumerCommand
  channel_key : Int
  stream_key : Int
  cpu : Nat
  no_monitor : Int
  deriving DecidableEq, Repr

/-- `consumer_init_channel_comm_msg` (consumer.c, modelled from its call
site: it copies its arguments into the record). -/
def consumer_init_channel_comm_msg (cmd : ConsumerCommand)
    (channel_key : Int) (session_id : Nat) (path : String) (uid gid : Nat)
    (net_index : Nat) (name : String) (stream_count : Nat) (output : Nat)
    (channel_type : ConsumerChannelType)
    (tracefile_size tracefile_count : Nat) : ChannelCommMsg :=
  { cmd := cmd, channel_key := channel_key, session_id := session_id,
    path := path, uid := uid, gid := gid, net_index := net_index,
    name := name, stream_count := stream_count, output := output,
    channel_type := channel_type, tracefile_size := tracefile_size,
    tracefile_count := tracefile_count }

/-- `consumer_init_stream_comm_msg` (consumer.c, modelled from its call
site); `no_monitor` starts cleared. -/
def consumer_init_stream_comm_msg (cmd : ConsumerCommand)
    (channel_key stream_key : Int) (cpu : Nat) : StreamCommMsg :=
  { cmd := cmd, channel_key := channel_key, stream_key := stream_key,
    cpu := cpu, no_monitor := 0 }

/-- A control message sent to the consumer socket; a stream message
carries its count of ancillary file descriptors. -/
inductive SentMsg where
  | channel (m : ChannelCommMsg)
  | stream (m : StreamCommMsg) (nb_fd : Nat)
  deriving DecidableEq, Repr

/-- Path selection of the kernel consumer handoff: LOCAL consumers get
`trace_path ++ subdir`, NETWORK consumers get `subdir` only. -/
def kernel_consumer_path (consumer : ConsumerOutput) : String :=
  match consumer.type with
  | ConsumerDstType.local => consumer.trace_path ++ consumer.subdir
  | ConsumerDstType.network => consumer.subdir

/-- Oracle for the external calls of `kernel_consumer_add_metadata`:
`run_as_mkdir_recursive` (only for a LOCAL consumer), `consumer_send_channel`
and `consumer_send_stream`. -/
structure KernelMetadataOracle where
  mkdir_ret : Int
  send_channel_ret : Int
  send_stream_ret : Int
  deriving DecidableEq, Repr

/-- `kernel_consumer_add_metadata` (kernel-consumer.c): resolve the path
(creating the local trace directory, where `-EEXIST` is success), send one
ADD_CHANNEL record for the metadata channel (key = metadata fd, name
`"metadata"`, one stream, channel-type METADATA, no tracefile rotation),
then one ADD_STREAM record (cpu 0, the caller's `no_monitor` flag) with
exactly one ancillary file descriptor. -/
def kernel_consumer_add_metadata (session : LttKernelSession)
    (no_monitor : Int) (o : KernelMetadataOracle) : List SentMsg × Int :=
  if session.consumer.type = ConsumerDstType.local ∧ o.mkdir_ret < 0 ∧
      o.mkdir_ret ≠ -EEXIST then
    ([], o.mkdir_ret)
  else if o.send_channel_ret < 0 then
    ([SentMsg.channel (consumer_init_channel_comm_msg
        ConsumerCommand.addChannel session.metadata_fd session.id
        (kernel_consumer_path session.consumer) session.uid session.gid
        session.consumer.net_seq_index DEFAULT_METADATA_NAME 1
        DEFAULT_KERNEL_CHANNEL_OUTPUT ConsumerChannelType.metadata 0 0)],
     o.send_channel_ret)
  else if o.send_stream_ret < 0 then
    ([SentMsg.channel (consumer_init_channel_comm_msg
        ConsumerCommand.addChannel session.metadata_fd session.id
        (kernel_consumer_path session.consumer) session.uid session.gid
        session.consumer.net_seq_index DEFAULT_METADATA_NAME 1
        DEFAULT_KERNEL_CHANNEL_OUTPUT ConsumerChannelType.metadata 0 0),
      SentMsg.stream
        { consumer_init_stream_comm_msg ConsumerCommand.addStream
            session.metadata_fd session.metadata_stream_fd 0 with
          no_monitor := no_monitor } 1],
     o.send_stream_ret)
  else
    ([SentMsg.channel (consumer_init_channel_comm_msg
        ConsumerCommand.addChannel session.metadata_fd session.id
        (kernel_consumer_path session.consumer) session.uid session.gid
        session.consumer.net_seq_index DEFAULT_METADATA_NAME 1
        DEFAULT_KERNEL_CHANNEL_OUTPUT ConsumerChannelType.metadata 0 0),
      SentMsg.stream
        { consumer_init_stream_comm_msg ConsumerCommand.addStream
            session.metadata_fd session.metadata_stream_fd 0 with
          no_monitor := no_monitor } 1],
     0)

/-- C9: on a kernel session with a metadata stream whose directory
creation and sends succeed, `kernel_consumer_add_metadata` sends exactly
one ADD_CHANNEL record with channel-type METADATA, name `"metadata"` and
stream count 1, followed by exactly one ADD_STREAM record with `cpu = 0`
whose `no_monitor` flag equals the caller's argument, carrying exactly one
ancillary file descriptor. -/
theorem c9_kernel_metadata_messages (session : LttKernelSession)
    (no_monitor : Int) (o : KernelMetadataOracle)
    (hmk : session.consumer.type = ConsumerDstType.local →
      0 ≤ o.mkdir_ret ∨ o.mkdir_ret = -EEXIST)
    (hch : 0 ≤ o.send_channel_ret) (hst : 0 ≤ o.send_stream_ret) :
    (kernel_consumer_add_metadata session no_monitor o).1 =
      [SentMsg.channel
        { cmd := ConsumerCommand.addChannel,
          channel_key := session.metadata_fd,
          session_id := session.id,
          path := kernel_consumer_path session.consumer,
          uid := session.uid, gid := session.gid,
          net_index := session.consumer.net_seq_index,
          name := DEFAULT_METADATA_NAME, stream_count := 1,
          output := DEFAULT_KERNEL_CHANNEL_OUTPUT,
          channel_type := ConsumerChannelType.metadata,
          tracefile_size := 0, tracefile_count := 0 },
       SentMsg.stream
        { cmd := ConsumerCommand.addStream,
          channel_key := session.metadata_fd,
          stream_key := session.metadata_stream_fd,
          cpu := 0, no_monitor := no_monitor } 1] ∧
    (kernel_consumer_add_metadata session no_monitor o).2 = 0 := by
  unfold kernel_consumer_add_metadata
  rw [if_neg (by
    rintro ⟨hl, hlt, hne⟩
    rcases hmk hl with hge | heq
    · omega
    · exact hne heq)]
  rw [if_neg (by omega), if_neg (by omega)]
  exact ⟨rfl, rfl⟩

/-- Witness fixture session for C9: a local-output kernel session with
metadata fds 10/11. -/
def c9w_session : LttKernelSession :=
  { id := 42, uid := 1000, gid := 1000, metadata_fd := 10,
    metadata_stream_fd := 11,
    consumer := { type := ConsumerDstType.local, trace_path := "/tmp/tr/",
                  subdir := "k/", net_seq_index := 0, enabled := true } }

/-- Witness fixture oracle for C9: every external call succeeds. -/
def c9w_oracle : KernelMetadataOracle :=
  { mkdir_ret := 0, send_channel_ret := 0, send_stream_ret := 0 }

/-- Witness for C9 at a concrete input, with `no_monitor = 1`. -/
theorem c9_kernel_metadata_messages_witness :
    (kernel_consumer_add_metadata c9w_session 1 c9w_oracle).1 =
      [SentMsg.channel
        { cmd := ConsumerCommand.addChannel,
          channel_key := c9w_session.metadata_fd,
          session_id := c9w_session.id,
          path := kernel_consumer_path c9w_session.consumer,
          uid := c9w_session.uid, gid := c9w_session.gid,
          net_index := c9w_session.consumer.net_seq_index,
          name := DEFAULT_METADATA_NAME, stream_count := 1,
          output := DEFAULT_KERNEL_CHANNEL_OUTPUT,
          channel_type := ConsumerChannelType.metadata,
          tracefile_size := 0, tracefile_count := 0 },
       SentMsg.stream
        { cmd := ConsumerCommand.addStream,
          channel_key := c9w_session.metadata_fd,
          stream_key := c9w_session.metadata_stream_fd,
          cpu := 0, no_monitor := 1 } 1] ∧
    (kernel_consumer_add_metadata c9w_session 1 c9w_oracle).2 = 0 :=
  c9_kernel_metadata_messages c9w_session 1 c9w_oracle
    (fun _ => Or.inl (by decide)) (by decide) (by decide)

/-! ## Per-app event creation (ust-app.c) -/

/-- Oracle for the tracer calls of `create_ust_event`:
`ustctl_create_event` (with the handle of the created object),
`ustctl_set_filter` and `ustctl_disable`. -/
structure CreateEventOracle where
  create_ret : Int
  obj_handle : Int
  set_filter_ret : Int
  disable_ret : Int
  deriving DecidableEq, Repr

/-- `create_ust_event` (ust-app.c): create the event on the tracer
(recording the tracer object and its handle), set the filter when one is
present, and disable the event on the tracer when it is not enabled.  In
the disable-failure switch, `-LTTNG_UST_ERR_PERM` is a code-flow assertion
(reported by the Bool) and `-LTTNG_UST_ERR_EXIST` is success-equivalent
(`ret = 0`). -/
def create_ust_event (ua_event : UstAppEvent) (o : CreateEventOracle) :
    UstAppEvent × Int × Bool :=
  if o.create_ret < 0 then (ua_event, o.create_ret, false)
  else if ua_event.filter.isSome ∧ o.set_filter_ret < 0 then
    ({ ua_event with obj_set := true, handle := o.obj_handle },
     o.set_filter_ret, false)
  else if ua_event.enabled = false ∧ o.disable_ret < 0 then
    if o.disable_ret = -LTTNG_UST_ERR_PERM then
      ({ ua_event with obj_set := true, handle := o.obj_handle },
       o.disable_ret, true)
    else if o.disable_ret = -LTTNG_UST_ERR_EXIST then
      ({ ua_event with obj_set := true, handle := o.obj_handle }, 0, false)
    else
      ({ ua_event with obj_set := true, handle := o.obj_handle },
       o.disable_ret, false)
  else
    ({ ua_event with obj_set := true, handle := o.obj_handle }, 0, false)

/-- The fresh app event `create_ust_app_event` allocates and shadow-copies
from the global event before contacting the tracer. -/
def fresh_app_event (uevent : LttUstEvent) : UstAppEvent :=
  shadow_copy_event (alloc_ust_app_event uevent.attr.name (some uevent.attr))
    uevent

/-- `create_ust_app_event` (ust-app.c): if an event matches under the
event key, return `-EEXIST` without touching anything; otherwise allocate
and shadow-copy a fresh event (`alloc_ok` is the `zmalloc` outcome),
create it on the tracer, and insert it into the channel's event table only
after the tracer-side create succeeded; on tracer failure the fresh event
is destroyed without ever being inserted (a tracer `-LTTNG_UST_ERR_EXIST`
on a not-found event is a code-flow assertion, reported by the Bool). -/
def create_ust_app_event (events : List UstAppEvent) (uevent : LttUstEvent)
    (alloc_ok : Bool) (o : CreateEventOracle) :
    List UstAppEvent × Int × Bool :=
  match find_ust_app_event events uevent.attr.name uevent.filter
      uevent.attr.loglevel with
  | some _ => (events, -EEXIST, false)
  | none =>
      if !alloc_ok then (events, -ENOMEM, false)
      else if (create_ust_event (fresh_app_event uevent) o).2.1 < 0 then
        (events, (create_ust_event (fresh_app_event uevent) o).2.1,
         (create_ust_event (fresh_app_event uevent) o).2.2 ||
           ((create_ust_event (fresh_app_event uevent) o).2.1 ==
             -LTTNG_UST_ERR_EXIST))
      else
        (add_unique_ust_app_event events
          (create_ust_event (fresh_app_event uevent) o).1,
         (create_ust_event (fresh_app_event uevent) o).2.1,
         (create_ust_event (fresh_app_event uevent) o).2.2)

/-- C10: per-app event creation is atomic on the channel's event table.
(1) Whenever `create_ust_app_event` fails (key already present, allocation
failure, or tracer-side failure), the event table is unchanged.  (2) On
success, the table is exactly the old table with the freshly allocated
event (as returned by the tracer-side create) appended by unique insert,
and the tracer-side create did succeed. -/
theorem c10_create_event_atomicity :
    (∀ (events : List UstAppEvent) (uevent : LttUstEvent) (alloc_ok : Bool)
        (o : CreateEventOracle),
      (create_ust_app_event events uevent alloc_ok o).2.1 < 0 →
      (create_ust_app_event events uevent alloc_ok o).1 = events) ∧
    (∀ (events : List UstAppEvent) (uevent : LttUstEvent) (alloc_ok : Bool)
        (o : CreateEventOracle),
      (create_ust_app_event events uevent alloc_ok o).2.1 = 0 →
      (create_ust_app_event events uevent alloc_ok o).1 =
        add_unique_ust_app_event events
          (create_ust_event (fresh_app_event uevent) o).1 ∧
      (create_ust_event (fresh_app_event uevent) o).2.1 = 0) := by
  constructor
  · intro events uevent alloc_ok o hret
    rcases hf : find_ust_app_event events uevent.attr.name uevent.filter
        uevent.attr.loglevel with _ | e
    · simp only [create_ust_app_event, hf] at hret ⊢
      split_ifs at hret ⊢ with h1 h2
      · rfl
      · rfl
      · have hret' : (create_ust_event (fresh_app_event uevent) o).2.1 < 0 :=
          hret
        exact absurd hret' h2
    · simp only [create_ust_app_event, hf]
  · intro events uevent alloc_ok o hret
    rcases hf : find_ust_app_event events uevent.attr.name uevent.filter
        uevent.attr.loglevel with _ | e
    · simp only [create_ust_app_event, hf] at hret ⊢
      split_ifs at hret ⊢ with h1 h2
      · have hret' : (-ENOMEM : Int) = 0 := hret
        exact absurd hret' (by decide)
      · have hret' : (create_ust_event (fresh_app_event uevent) o).2.1 = 0 :=
          hret
        exact absurd hret' (by omega)
      · exact ⟨rfl, hret⟩
    · simp only [create_ust_app_event, hf] at hret
      have hret' : (-EEXIST : Int) = 0 := hret
      exact absurd hret' (by decide)

/-- Witness fixture global event for C10. -/
def c10w_uevent : LttUstEvent :=
  { enabled := true,
    attr := { name := "sched_switch", loglevel_type := LoglevelType.all,
              loglevel := -1 },
    filter := none }

/-- Witness fixture oracle for C10: the tracer-side create fails with
`-ENOMEM`. -/
def c10w_oracle : CreateEventOracle :=
  { create_ret := -ENOMEM, obj_handle := 0, set_filter_ret := 0,
    disable_ret := 0 }

/-- Witness fixture oracle for C10: every tracer call succeeds. -/
def c10w_oracle_ok : CreateEventOracle :=
  { create_ret := 0, obj_handle := 7, set_filter_ret := 0,
    disable_ret := 0 }

/-- Witness for C10 at concrete inputs: a failing tracer create leaves the
empty table unchanged, and a successful one appends exactly the fresh
event. -/
theorem c10_create_event_atomicity_witness :
    (create_ust_app_event [] c10w_uevent true c10w_oracle).1 = [] ∧
    (create_ust_app_event [] c10w_uevent true c10w_oracle_ok).1 =
      add_unique_ust_app_event []
        (create_ust_event (fresh_app_event c10w_uevent) c10w_oracle_ok).1 :=
  ⟨c10_create_event_atomicity.1 [] c10w_uevent true c10w_oracle (by decide),
   (c10_create_event_atomicity.2 [] c10w_uevent true c10w_oracle_ok
     (by decide)).1⟩

end LttngSessiond
